import Mathlib

/-!
Shallow embedding of the obsidian-kroki-enhanced core subsystems:
`src/diagram-cache.ts`, `src/diagram-detector.ts`, `src/kroki-client.ts`,
`src/diagram-renderer.ts`.

Modelling conventions:
* JavaScript `Map` objects are association lists `List (String × α)` with the
  `Map` semantics: `set` replaces an existing key in place (keeping its
  insertion position) or appends at the end; `delete` removes the entry;
  iteration order is insertion order.
* Time (`Date.now()`) is passed explicitly as a `Nat` argument `now`.
* The injected HTTP transport (`requestUrl`) is a function `Nat → ReqOutcome`
  giving the outcome of the i-th transport call; functions that perform
  network calls additionally return the number of calls made and a log of the
  request parameters of each call, so that claims about "number of attempts"
  are observable.
* External libraries are parameters: `pako.deflate` is a
  `String → Except String (List Nat)` (it may throw); `Buffer`/`btoa` base64
  is implemented faithfully below.
* A thrown JavaScript exception is an `Except.error` carrying the error's
  `name` and `message`.
-/

/-- Whitespace characters recognized by JavaScript's `\s` / `trim`
(restricted to the ASCII ones, which is all the repository ever feeds in). -/
def isJsSpace (c : Char) : Bool :=
  c = ' ' || c = '\t' || c = '\n' || c = '\r' || c = '\x0b' || c = '\x0c'

/-- JavaScript `\w` word characters: ASCII letters, digits and underscore. -/
def isWordChar (c : Char) : Bool :=
  c.isAlphanum || c = '_'

/-- Characters matched by JavaScript's `.` (anything but a line terminator). -/
def dotMatch (c : Char) : Bool :=
  c != '\n' && c != '\r' && c != '\u2028' && c != '\u2029'

/-- JavaScript `String.prototype.trim` on a character list. -/
def jsTrimChars (l : List Char) : List Char :=
  ((l.dropWhile isJsSpace).reverse.dropWhile isJsSpace).reverse

/-- JavaScript `String.prototype.trim`. -/
def jsTrim (s : String) : String :=
  String.mk (jsTrimChars s.data)

/-- JavaScript `String.prototype.split(sep)` on character lists:
always returns at least one (possibly empty) field. -/
def splitOnChar (sep : Char) : List Char → List (List Char)
  | [] => [[]]
  | c :: rest =>
    match splitOnChar sep rest with
    | [] => if c = sep then [[], []] else [[c]]
    | h :: t => if c = sep then [] :: h :: t else (c :: h) :: t

/-- Tests whether `pat` occurs as a contiguous run inside the list
(JavaScript `String.prototype.includes`). -/
def listHasSub (pat : List Char) : List Char → Bool
  | [] => pat.isEmpty
  | c :: rest => pat.isPrefixOf (c :: rest) || listHasSub pat rest

/-- Case-insensitive prefix test (for the `/gi` regex flags). -/
def ciIsPrefix : List Char → List Char → Bool
  | [], _ => true
  | _ :: _, [] => false
  | p :: ps, c :: cs => p.toLower = c.toLower && ciIsPrefix ps cs

/-- Case-insensitive replace-all, by remaining fuel (each step consumes at
least one character, so fuel equal to the list length always suffices; the
fuel only makes the recursion structural and hence kernel-computable). -/
def replaceAllCIAux (pat rep : List Char) : Nat → List Char → List Char
  | _, [] => []
  | 0, l => l
  | fuel + 1, c :: rest =>
    if 0 < pat.length ∧ ciIsPrefix pat (c :: rest) then
      rep ++ replaceAllCIAux pat rep fuel ((c :: rest).drop pat.length)
    else
      c :: replaceAllCIAux pat rep fuel rest

/-- Case-insensitive replace-all (JavaScript `s.replace(/pat/gi, rep)`). -/
def replaceAllCI (pat rep l : List Char) : List Char :=
  replaceAllCIAux pat rep l.length l

/-- JavaScript `Map.prototype.get` on an association list. -/
def mapLookup {α : Type} : List (String × α) → String → Option α
  | [], _ => none
  | (k', v) :: rest, k => if k' = k then some v else mapLookup rest k

/-- JavaScript `Map.prototype.set`: replace in place or append. -/
def mapSet {α : Type} : List (String × α) → String → α → List (String × α)
  | [], k, v => [(k, v)]
  | (k', v') :: rest, k, v =>
    if k' = k then (k, v) :: rest else (k', v') :: mapSet rest k v

/-- JavaScript `Map.prototype.delete`: remove the entry for the key. -/
def mapDelete {α : Type} : List (String × α) → String → List (String × α)
  | [], _ => []
  | (k', v') :: rest, k =>
    if k' = k then rest else (k', v') :: mapDelete rest k

/-- The keys of an association list, in order. -/
def mapKeys {α : Type} (l : List (String × α)) : List String :=
  l.map Prod.fst

/-! ### Base64 (Node `Buffer.toString('base64')` / `btoa`) -/

/-- The standard base64 alphabet. -/
def b64Alphabet : List Char :=
  ("ABCDEFGHIJKLMNOPQRSTUVWXYZabcdefghijklmnopqrstuvwxyz0123456789+/").data

/-- The base64 digit for a 6-bit value. -/
def b64Char (n : Nat) : Char :=
  b64Alphabet.getD n 'A'

/-- Standard base64 encoding of a byte sequence, with `=` padding. -/
def base64Encode : List Nat → List Char
  | [] => []
  | [b1] =>
    [b64Char (b1 / 4), b64Char (b1 % 4 * 16), '=', '=']
  | [b1, b2] =>
    [b64Char (b1 / 4), b64Char (b1 % 4 * 16 + b2 / 16), b64Char (b2 % 16 * 4), '=']
  | b1 :: b2 :: b3 :: rest =>
    b64Char (b1 / 4) :: b64Char (b1 % 4 * 16 + b2 / 16) ::
      b64Char (b2 % 16 * 4 + b3 / 64) :: b64Char (b3 % 64) :: base64Encode rest

/-- The URL-safe substitution of `encodeDiagramSource`:
`+` becomes `-` and `/` becomes `_` (`.replace(/\+/g,'-').replace(/\//g,'_')`). -/
def urlSafeChar (c : Char) : Char :=
  if c = '+' then '-' else if c = '/' then '_' else c

/-- Strip trailing `=` padding (`.replace(/=+$/,'')`). -/
def stripTrailingEq (l : List Char) : List Char :=
  (l.reverse.dropWhile (fun c => c = '=')).reverse

/-! ### `src/diagram-cache.ts` -/

/-- Embeds `DiagramCacheEntry` from `diagram-cache.ts`. -/
structure DiagramCacheEntry where
  source : String
  renderedContent : String
  timestamp : Nat
  diagramType : String
  outputFormat : String
deriving DecidableEq

/-- State of a `DiagramCache`: the backing `Map` plus its configuration. -/
structure DiagramCache where
  cache : List (String × DiagramCacheEntry)
  maxCacheSize : Nat
  maxCacheAge : Nat
deriving DecidableEq

namespace DiagramCache

/-- The `DiagramCache` constructor (fresh empty map). -/
def mkCache (maxCacheSize maxCacheAge : Nat) : DiagramCache :=
  ⟨[], maxCacheSize, maxCacheAge⟩

/-- Embeds `generateKey` from `diagram-cache.ts`. -/
def generateKey (source diagramType outputFormat : String)
    (file : Option String) : String :=
  let key := diagramType ++ ":" ++ outputFormat ++ ":" ++ source
  match file with
  | some path => key ++ ":" ++ path
  | none => key

/-- Embeds `get`: lookup with lazy expiry.  Returns the content (or `none`) together
with the possibly-updated cache (an expired entry is deleted as a side
effect). -/
def get (c : DiagramCache) (now : Nat) (source diagramType outputFormat : String)
    (file : Option String) : Option String × DiagramCache :=
  let key := generateKey source diagramType outputFormat file
  match mapLookup c.cache key with
  | some entry =>
    if now - entry.timestamp ≤ c.maxCacheAge then
      (some entry.renderedContent, c)
    else
      (none, { c with cache := mapDelete c.cache key })
  | none => (none, c)

/-- The comparison used by `pruneCache`'s `entries.sort` (by timestamp). -/
def byTimestamp (a b : String × DiagramCacheEntry) : Prop :=
  a.2.timestamp ≤ b.2.timestamp

instance : DecidableRel byTimestamp :=
  fun a b => inferInstanceAs (Decidable (a.2.timestamp ≤ b.2.timestamp))

/-- Embeds `pruneCache`: sort all entries oldest-first (JavaScript `Array.sort` is
stable, modelled by insertion sort) and delete the oldest
`Math.floor(maxCacheSize * 0.2)` of them.  For every realistic size
(`maxCacheSize < 2^52`) the floating-point expression equals `maxCacheSize / 5`
in natural division, which is how it is embedded. -/
def pruneCache (entries : List (String × DiagramCacheEntry)) (maxCacheSize : Nat) :
    List (String × DiagramCacheEntry) :=
  let sorted := entries.insertionSort byTimestamp
  let entriesToRemove := sorted.take (maxCacheSize / 5)
  entriesToRemove.foldl (fun acc e => mapDelete acc e.1) entries

/-- Embeds `set`: insert the entry, then prune synchronously if the size now exceeds
`maxCacheSize`. -/
def set (c : DiagramCache) (now : Nat)
    (source renderedContent diagramType outputFormat : String)
    (file : Option String) : DiagramCache :=
  let key := generateKey source diagramType outputFormat file
  let entry : DiagramCacheEntry :=
    { source := source, renderedContent := renderedContent, timestamp := now
      diagramType := diagramType, outputFormat := outputFormat }
  let cache' := mapSet c.cache key entry
  if cache'.length > c.maxCacheSize then
    { c with cache := pruneCache cache' c.maxCacheSize }
  else
    { c with cache := cache' }

/-- Embeds `remove`. -/
def remove (c : DiagramCache) (source diagramType outputFormat : String)
    (file : Option String) : DiagramCache :=
  { c with cache := mapDelete c.cache (generateKey source diagramType outputFormat file) }

/-- Embeds `clear`. -/
def clear (c : DiagramCache) : DiagramCache :=
  { c with cache := [] }

/-- Embeds `size`. -/
def size (c : DiagramCache) : Nat :=
  c.cache.length

/-- One `set` call of a sequence, with its own `Date.now()` value. -/
structure SetOp where
  now : Nat
  source : String
  renderedContent : String
  diagramType : String
  outputFormat : String
  file : Option String
deriving DecidableEq

/-- Apply a sequence of `set` calls. -/
def applySets (c : DiagramCache) (ops : List SetOp) : DiagramCache :=
  ops.foldl
    (fun c op => c.set op.now op.source op.renderedContent op.diagramType op.outputFormat op.file)
    c

end DiagramCache

/-! ### `src/diagram-detector.ts` -/

/-- Embeds `DiagramDetectionResult` from `diagram-detector.ts`.  Here `options` is the
parsed option record (a JavaScript object, modelled as an insertion-ordered
association list). -/
structure DiagramDetectionResult where
  diagramType : String
  source : String
  language : String
  options : List (String × String)
deriving DecidableEq

/-- State of a `DiagramDetector`: the type/alias table and the alias map built
from it. -/
structure DiagramDetector where
  diagramTypes : List (String × List String)
  aliasMap : List (String × String)
deriving DecidableEq

namespace DiagramDetector

/-- Embeds `buildAliasMap`: for each diagram type add the primary name, then each
alias, into a fresh map (later writes win on collision). -/
def buildAliasMap (diagramTypes : List (String × List String)) :
    List (String × String) :=
  diagramTypes.foldl
    (fun m e =>
      e.2.foldl (fun m a => mapSet m a e.1) (mapSet m e.1 e.1))
    []

/-- The `DiagramDetector` constructor. -/
def mkDetector (diagramTypes : List (String × List String)) : DiagramDetector :=
  ⟨diagramTypes, buildAliasMap diagramTypes⟩

/-- Embeds `updateDiagramTypes`: replace the table and rebuild the map. -/
def updateDiagramTypes (_d : DiagramDetector)
    (diagramTypes : List (String × List String)) : DiagramDetector :=
  mkDetector diagramTypes

/-- Embeds `detectDiagramType`: `this.aliasMap.get(language) || null`
(an empty-string value is falsy and also yields `null`). -/
def detectDiagramType (d : DiagramDetector) (language : String) : Option String :=
  match mapLookup d.aliasMap language with
  | some v => if v = "" then none else some v
  | none => none

/-- The deterministic reading of the option-block regex
`/^(\w+)\s*\{(.+)\}$/`: a nonempty run of word characters, optional
whitespace, `{`, at least one `.`-matchable character, and a final `}` at the
end of the string.  Returns the captured base identifier and the inner
option text. -/
def matchLangOpts (l : List Char) : Option (List Char × List Char) :=
  let base := l.takeWhile isWordChar
  if base.isEmpty then none
  else
    match (l.dropWhile isWordChar).dropWhile isJsSpace with
    | '{' :: rest =>
      if rest.getLast? = some '}' && 2 ≤ rest.length
          && rest.dropLast.all dotMatch then
        some (base, rest.dropLast)
      else none
    | _ => none

/-- The JavaScript-object option record: property assignment `options[key] = value`. -/
def recordSet (opts : List (String × String)) (k v : String) :
    List (String × String) :=
  mapSet opts k v

/-- Embeds `parseLanguageOptions` from `diagram-detector.ts`: if the language line
contains `{` and matches the regex, split the captured option text on `,`,
each field on `:`, trim both sides, and keep pairs whose key and value are
both truthy.  When the regex does not match, the language line is returned
unchanged (including its `{`), with no options. -/
def parseLanguageOptions (language : String) :
    String × List (String × String) :=
  if language.data.contains '{' then
    match matchLangOpts language.data with
    | some (baseChars, optionsChars) =>
      let optionPairs := splitOnChar ',' optionsChars
      let options := optionPairs.foldl
        (fun opts pair =>
          let parts := (splitOnChar ':' pair).map jsTrimChars
          match parts with
          | key :: value :: _ =>
            if ¬key.isEmpty ∧ ¬value.isEmpty then
              recordSet opts (String.mk key) (String.mk value)
            else opts
          | _ => opts)
        []
      (String.mk baseChars, options)
    | none => (language, [])
  else (language, [])

/-- Embeds `detectDiagram` from `diagram-detector.ts` (the markdown post-processor
context argument is unused by the source and omitted). -/
def detectDiagram (d : DiagramDetector) (source language : String) :
    Option DiagramDetectionResult :=
  let parsed := parseLanguageOptions language
  match detectDiagramType d parsed.1 with
  | none => none
  | some diagramType =>
    some { diagramType := diagramType, source := source
           language := parsed.1, options := parsed.2 }

/-- Embeds `getSupportedLanguages`. -/
def getSupportedLanguages (d : DiagramDetector) : List String :=
  mapKeys d.aliasMap

end DiagramDetector

/-! ### `src/kroki-client.ts` -/

/-- Embeds `KrokiRequestOptions` from `kroki-client.ts`. -/
structure KrokiRequestOptions where
  diagramType : String
  outputFormat : String
  source : String
  serverUrl : String
  customHeaders : Option (List (String × String)) := none
  timeout : Option Nat := none
  retryCount : Option Nat := none
  retryDelay : Option Nat := none
deriving DecidableEq

/-- Embeds `KrokiResponse` from `kroki-client.ts`. -/
structure KrokiResponse where
  success : Bool
  data : Option String := none
  error : Option String := none
  statusCode : Option Nat := none
deriving DecidableEq

/-- A thrown JavaScript `Error` (its `name` and `message`). -/
structure JsError where
  name : String
  message : String
deriving DecidableEq

/-- Obsidian's `RequestUrlResponse` as consumed by the client: status, body
text, optional binary body, and the `content-type` header. -/
structure RequestUrlResponse where
  status : Nat
  text : String
  arrayBuffer : Option (List Nat)
  contentType : String
deriving DecidableEq

/-- The outcome of one `requestUrl` call: a response, or a thrown error. -/
inductive ReqOutcome where
  | resp (r : RequestUrlResponse)
  | err (e : JsError)
deriving DecidableEq

/-- Obsidian's `RequestUrlParam` as built by the client (headers are constant
and do not influence the modelled behavior). -/
structure RequestUrlParam where
  url : String
  method : String
  body : Option String := none
deriving DecidableEq

/-- The injected HTTP transport: outcome of the i-th transport call. -/
def Transport : Type := Nat → ReqOutcome

/-- JavaScript `x || default` on strings (empty string is falsy). -/
def jsStrOr (m : Option String) (dflt : String) : String :=
  match m with
  | some s => if s = "" then dflt else s
  | none => dflt

/-- JavaScript `options.retryCount || 1` (`0` and `undefined` are falsy). -/
def jsNatOr (n : Option Nat) (dflt : Nat) : Nat :=
  match n with
  | some k => if k = 0 then dflt else k
  | none => dflt

namespace KrokiClient

/-- Steps (1)-(2) of `encodeDiagramSource`: trim, then normalize the HTML
entities `&nbsp;`, `&gt;`, `&lt;` (case-insensitively). -/
def normalizeSource (source : String) : String :=
  let l := jsTrimChars source.data
  let l := replaceAllCI ("&nbsp;").data (" ").data l
  let l := replaceAllCI ("&gt;").data (">").data l
  let l := replaceAllCI ("&lt;").data ("<").data l
  String.mk l

/-- Steps (4)-(5) of `encodeDiagramSource`: base64-encode the compressed bytes
and make the result URL-safe. -/
def urlSafeBase64 (bytes : List Nat) : String :=
  String.mk (stripTrailingEq ((base64Encode bytes).map urlSafeChar))

/-- Embeds `encodeDiagramSource` from `kroki-client.ts`.  Here `deflate` is the external
`pako.deflate` (level 9): it may throw, which the source converts into
`Error('Failed to encode diagram source')`. -/
def encodeDiagramSource (deflate : String → Except String (List Nat))
    (source : String) : Except String String :=
  match deflate (normalizeSource source) with
  | Except.error _ => Except.error ("Failed to encode diagram source")
  | Except.ok compressed => Except.ok (urlSafeBase64 compressed)

/-- Embeds `arrayBufferToDataUrl`. -/
def arrayBufferToDataUrl (buffer : List Nat) (mimeType : String) : String :=
  "data:" ++ mimeType ++ ";base64," ++ String.mk (base64Encode buffer)

/-- The payload a 2xx response is normalized to: a data URI when the response
has a binary body, otherwise the body text. -/
def normalizedPayload (r : RequestUrlResponse) : String :=
  match r.arrayBuffer with
  | some buffer => arrayBufferToDataUrl buffer r.contentType
  | none => r.text

/-- Embeds `processResponse`. -/
def processResponse (r : RequestUrlResponse) : KrokiResponse :=
  if 200 ≤ r.status ∧ r.status < 300 then
    { success := true, data := some (normalizedPayload r)
      error := none, statusCode := some r.status }
  else
    { success := false, data := none
      error := some (if r.text = "" then ("HTTP error " ++ toString r.status) else r.text)
      statusCode := some r.status }

/-- The retry loop of `sendRequestWithRetry`, by remaining attempts.
Returns the result (a response, or the thrown error) and the number of
transport calls made.  A 2xx response returns immediately; a 5xx response
records the error and retries after backoff; any other response returns
without retrying; a thrown `AbortError`/fetch failure retries; any other
thrown error is rethrown.  When the attempts are exhausted the last recorded
error is thrown. -/
def sendRequestWithRetryAux (transport : Transport) :
    Nat → Nat → Option JsError → Except JsError RequestUrlResponse × Nat
  | 0, _, lastError =>
    (Except.error (lastError.getD ⟨"Error", "Unknown error during request"⟩), 0)
  | remaining + 1, counter, _lastError =>
    match transport counter with
    | ReqOutcome.resp r =>
      if 200 ≤ r.status ∧ r.status < 300 then
        (Except.ok r, 1)
      else if 500 ≤ r.status then
        let e : JsError :=
          ⟨"Error", "Server error: " ++ toString r.status ++ " " ++ r.text⟩
        let next := sendRequestWithRetryAux transport remaining (counter + 1) (some e)
        (next.1, next.2 + 1)
      else
        (Except.ok r, 1)
    | ReqOutcome.err e =>
      if e.name = "AbortError" ∨ listHasSub ("fetch").data e.message.data then
        let next := sendRequestWithRetryAux transport remaining (counter + 1) (some e)
        (next.1, next.2 + 1)
      else
        (Except.error e, 1)

/-- Embeds `sendRequestWithRetry`. -/
def sendRequestWithRetry (transport : Transport) (maxRetries counter : Nat) :
    Except JsError RequestUrlResponse × Nat :=
  sendRequestWithRetryAux transport maxRetries counter none

/-- Embeds `serverUrl.endsWith('/') ? serverUrl : serverUrl + '/'`. -/
def normalizeServerUrl (u : String) : String :=
  if u.endsWith ("/") then u else u ++ "/"

/-- Embeds `sendGetRequest` from `kroki-client.ts`.  Returns the `KrokiResponse`,
the advanced call counter, and the log of transport calls made.  Everything
is inside the `try`: an encoding failure or an exhausted retry loop is caught
and converted into a failure response whose `error` is the thrown message
(`error.message || 'Unknown error occurred'`); no `statusCode` is attached on
that path. -/
def sendGetRequest (deflate : String → Except String (List Nat))
    (transport : Transport) (options : KrokiRequestOptions) (counter : Nat) :
    KrokiResponse × Nat × List RequestUrlParam :=
  let serverUrl := normalizeServerUrl options.serverUrl
  match encodeDiagramSource deflate options.source with
  | Except.error msg =>
    ({ success := false, error := some (jsStrOr (some msg) ("Unknown error occurred")) },
      counter, [])
  | Except.ok encodedSource =>
    let url := serverUrl ++ options.diagramType ++ "/" ++ options.outputFormat
      ++ "/" ++ encodedSource
    let params : RequestUrlParam := { url := url, method := "GET" }
    let res := sendRequestWithRetry transport (jsNatOr options.retryCount 1) counter
    let log := List.replicate res.2 params
    match res.1 with
    | Except.ok r => (processResponse r, counter + res.2, log)
    | Except.error e =>
      ({ success := false, error := some (jsStrOr (some e.message) ("Unknown error occurred")) },
        counter + res.2, log)

/-- Embeds `sendPostRequest` from `kroki-client.ts`: same pipeline without the
encoding step; the raw source is the request body. -/
def sendPostRequest (transport : Transport) (options : KrokiRequestOptions)
    (counter : Nat) : KrokiResponse × Nat × List RequestUrlParam :=
  let serverUrl := normalizeServerUrl options.serverUrl
  let url := serverUrl ++ options.diagramType ++ "/" ++ options.outputFormat
  let params : RequestUrlParam := { url := url, method := "POST", body := some options.source }
  let res := sendRequestWithRetry transport (jsNatOr options.retryCount 1) counter
  let log := List.replicate res.2 params
  match res.1 with
  | Except.ok r => (processResponse r, counter + res.2, log)
  | Except.error e =>
    ({ success := false, error := some (jsStrOr (some e.message) ("Unknown error occurred")) },
      counter + res.2, log)

end KrokiClient

/-! ### `src/diagram-renderer.ts` -/

/-- Embeds `DiagramRenderOptions` from `diagram-renderer.ts`. -/
structure DiagramRenderOptions where
  outputFormat : String
  serverUrl : String
  customHeaders : Option (List (String × String)) := none
  timeout : Option Nat := none
  retryCount : Option Nat := none
  retryDelay : Option Nat := none
  useCache : Option Bool := none
  debugMode : Option Bool := none
deriving DecidableEq

/-- JavaScript truthiness of a nullable string (`null` and `''` are falsy). -/
def jsTruthyStr (s : Option String) : Bool :=
  match s with
  | some v => v ≠ ""
  | none => false

/-- JavaScript `options.useCache !== false`. -/
def useCacheOn (o : DiagramRenderOptions) : Bool :=
  o.useCache ≠ some false

namespace DiagramRenderer

/-- The `KrokiRequestOptions` record built inside `renderDiagram`. -/
def mkRequestOptions (source diagramType : String) (options : DiagramRenderOptions) :
    KrokiRequestOptions :=
  { diagramType := diagramType, outputFormat := options.outputFormat
    source := source, serverUrl := options.serverUrl
    customHeaders := options.customHeaders, timeout := options.timeout
    retryCount := options.retryCount, retryDelay := options.retryDelay }

deriving instance DecidableEq for Except

/-- The observable outcome of one `renderDiagram` call: the returned content
(or the thrown error message), the cache afterwards, the advanced transport
counter, and the log of transport calls. -/
structure RenderOutcome where
  result : Except String String
  cache : DiagramCache
  counter : Nat
  log : List RequestUrlParam
deriving DecidableEq

/-- Embeds `renderDiagram` from `diagram-renderer.ts`: consult the cache (a hit must
be truthy, so an empty cached string falls through as a miss); on miss send a
GET, fall back to a single POST when the GET result is a non-400 failure;
cache and return a truthy payload, otherwise throw.  `sendGetRequest` and
`sendPostRequest` never throw, so the surrounding `try` is inert. -/
def renderDiagram (deflate : String → Except String (List Nat))
    (transport : Transport) (now : Nat) (cache : DiagramCache) (counter : Nat)
    (source diagramType : String) (options : DiagramRenderOptions) :
    RenderOutcome :=
  let probe :=
    if useCacheOn options then
      cache.get now source diagramType options.outputFormat none
    else (none, cache)
  if jsTruthyStr probe.1 then
    { result := Except.ok (probe.1.getD ("")), cache := probe.2
      counter := counter, log := [] }
  else
    let requestOptions := mkRequestOptions source diagramType options
    let g := KrokiClient.sendGetRequest deflate transport requestOptions counter
    let after :=
      if g.1.success = false ∧ g.1.statusCode ≠ some 400 then
        let p := KrokiClient.sendPostRequest transport requestOptions g.2.1
        (p.1, p.2.1, g.2.2 ++ p.2.2)
      else g
    if after.1.success ∧ jsTruthyStr after.1.data then
      let d := after.1.data.getD ("")
      let cache' :=
        if useCacheOn options then
          probe.2.set now source d diagramType options.outputFormat none
        else probe.2
      { result := Except.ok d, cache := cache', counter := after.2.1, log := after.2.2 }
    else
      { result := Except.error
          ("Failed to render diagram: " ++ jsStrOr after.1.error ("Unknown error"))
        cache := probe.2, counter := after.2.1, log := after.2.2 }

/-- Number of POST transport calls in a log. -/
def postCalls (log : List RequestUrlParam) : Nat :=
  (log.filter (fun p => p.method = "POST")).length

/-- Number of GET transport calls in a log. -/
def getCalls (log : List RequestUrlParam) : Nat :=
  (log.filter (fun p => p.method = "GET")).length

end DiagramRenderer

/-! ### Helper lemmas on the JavaScript `Map` model -/

/-- Keys of `mapSet`: unchanged when the key is present, appended otherwise. -/
theorem mapKeys_mapSet {α : Type} (l : List (String × α)) (k : String) (v : α) :
    mapKeys (mapSet l k v)
      = if k ∈ mapKeys l then mapKeys l else mapKeys l ++ [k] := by
  induction l with
  | nil => simp [mapKeys, mapSet]
  | cons e rest ih =>
    by_cases h : e.1 = k
    · subst h
      simp [mapKeys, mapSet]
    · simp only [mapKeys, mapSet, List.map_cons, if_neg h, List.mem_cons]
      rw [mapKeys] at ih
      by_cases hk : k ∈ List.map Prod.fst rest
      · simp [hk, ih, mapKeys]
      · have hke : k ≠ e.1 := fun hh => h hh.symm
        simp [hk, hke, ih, mapKeys]

/-- Length of `mapSet`: unchanged when the key is present, one more otherwise. -/
theorem length_mapSet {α : Type} (l : List (String × α)) (k : String) (v : α) :
    (mapSet l k v).length
      = if k ∈ mapKeys l then l.length else l.length + 1 := by
  have h := congrArg List.length (mapKeys_mapSet l k v)
  simp only [mapKeys, List.length_map] at h
  by_cases hk : k ∈ mapKeys l
  · rw [if_pos hk]
    simp only [mapKeys] at hk
    simpa [hk] using h
  · rw [if_neg hk]
    simp only [mapKeys] at hk
    simpa [hk] using h

/-- Key distinctness is preserved by `mapSet`. -/
theorem nodup_mapKeys_mapSet {α : Type} (l : List (String × α)) (k : String) (v : α)
    (h : (mapKeys l).Nodup) : (mapKeys (mapSet l k v)).Nodup := by
  rw [mapKeys_mapSet]
  by_cases hk : k ∈ mapKeys l
  · simpa [hk] using h
  · simp [hk, List.nodup_append, h]

/-- A present key is found by `mapLookup`. -/
theorem mapLookup_isSome_of_mem {α : Type} (l : List (String × α)) (k : String)
    (h : k ∈ mapKeys l) : ∃ v, mapLookup l k = some v := by
  induction l with
  | nil => simp [mapKeys] at h
  | cons e rest ih =>
    by_cases he : e.1 = k
    · exact ⟨e.2, by simp [mapLookup, he]⟩
    · simp only [mapKeys, List.map_cons, List.mem_cons] at h
      rcases h with h | h
      · exact absurd h.symm he
      · obtain ⟨v, hv⟩ := ih h
        exact ⟨v, by simp [mapLookup, he, hv]⟩

/-- Deleting a present key removes exactly one entry. -/
theorem length_mapDelete {α : Type} (l : List (String × α)) (k : String) (v : α)
    (h : mapLookup l k = some v) : (mapDelete l k).length + 1 = l.length := by
  induction l with
  | nil => simp [mapLookup] at h
  | cons e rest ih =>
    by_cases he : e.1 = k
    · simp [mapDelete, he]
    · simp only [mapLookup, if_neg he] at h
      simp [mapDelete, he, ih h]

/-- Keys of `mapDelete` form a sublist of the original keys. -/
theorem mapKeys_mapDelete_sublist {α : Type} (l : List (String × α)) (k : String) :
    (mapKeys (mapDelete l k)).Sublist (mapKeys l) := by
  induction l with
  | nil => simp [mapDelete, mapKeys]
  | cons e rest ih =>
    by_cases he : e.1 = k
    · simp only [mapDelete, if_pos he, mapKeys, List.map_cons]
      exact (List.sublist_cons_self _ _)
    · simp only [mapDelete, if_neg he, mapKeys, List.map_cons]
      exact ih.cons₂ _

/-- Key distinctness is preserved by `mapDelete`. -/
theorem nodup_mapKeys_mapDelete {α : Type} (l : List (String × α)) (k : String)
    (h : (mapKeys l).Nodup) : (mapKeys (mapDelete l k)).Nodup :=
  h.sublist (mapKeys_mapDelete_sublist l k)

/-- A different key survives `mapDelete`. -/
theorem mem_mapKeys_mapDelete {α : Type} (l : List (String × α)) (k k2 : String)
    (hne : k ≠ k2) (h : k ∈ mapKeys l) : k ∈ mapKeys (mapDelete l k2) := by
  induction l with
  | nil => simp [mapKeys] at h
  | cons e rest ih =>
    simp only [mapKeys, List.map_cons, List.mem_cons] at h
    by_cases he : e.1 = k2
    · simp only [mapDelete, if_pos he]
      rcases h with h | h
      · exact absurd (h.trans he) hne
      · exact h
    · simp only [mapDelete, if_neg he, mapKeys, List.map_cons, List.mem_cons]
      rcases h with h | h
      · exact Or.inl h
      · exact Or.inr (ih h)

/-- Folding `mapDelete` over distinct present keys removes exactly that many
entries. -/
theorem length_foldl_mapDelete {α : Type} (ks : List (String × α)) :
    ∀ (l : List (String × α)), (mapKeys l).Nodup → (mapKeys ks).Nodup →
      (∀ x ∈ ks, x.1 ∈ mapKeys l) →
      (ks.foldl (fun acc e => mapDelete acc e.1) l).length = l.length - ks.length := by
  induction ks with
  | nil => intro l _ _ _; simp
  | cons e ks ih =>
    intro l hl hks hmem
    have hmem0 : e.1 ∈ mapKeys l := hmem e (List.mem_cons_self e ks)
    obtain ⟨v, hv⟩ := mapLookup_isSome_of_mem l e.1 hmem0
    have hlen := length_mapDelete l e.1 v hv
    have hks' : (mapKeys ks).Nodup := by
      simp only [mapKeys, List.map_cons, List.nodup_cons] at hks
      exact hks.2
    have hnotin : e.1 ∉ mapKeys ks := by
      simp only [mapKeys, List.map_cons, List.nodup_cons] at hks
      exact hks.1
    have hmem' : ∀ x ∈ ks, x.1 ∈ mapKeys (mapDelete l e.1) := by
      intro x hx
      have hxk : x.1 ∈ mapKeys ks := List.mem_map_of_mem Prod.fst hx
      have hne : x.1 ≠ e.1 := by
        intro hh
        exact hnotin (hh ▸ hxk)
      exact mem_mapKeys_mapDelete l x.1 e.1 hne (hmem x (List.mem_cons_of_mem e hx))
    have := ih (mapDelete l e.1) (nodup_mapKeys_mapDelete l e.1 hl) hks' hmem'
    simp only [List.foldl_cons]
    rw [this]
    simp only [List.length_cons]
    omega

/-- Key distinctness is preserved by folding `mapDelete`. -/
theorem nodup_foldl_mapDelete {α : Type} (ks : List (String × α)) :
    ∀ (l : List (String × α)), (mapKeys l).Nodup →
      (mapKeys (ks.foldl (fun acc e => mapDelete acc e.1) l)).Nodup := by
  induction ks with
  | nil => intro l hl; simpa using hl
  | cons e ks ih =>
    intro l hl
    simp only [List.foldl_cons]
    exact ih _ (nodup_mapKeys_mapDelete l e.1 hl)

/-- Size of `pruneCache`: with distinct keys, exactly
`min (maxCacheSize / 5) entries.length` entries are deleted. -/
theorem length_pruneCache (entries : List (String × DiagramCacheEntry)) (n : Nat)
    (hnd : (mapKeys entries).Nodup) :
    (DiagramCache.pruneCache entries n).length
      = entries.length - min (n / 5) entries.length := by
  have hperm : (entries.insertionSort DiagramCache.byTimestamp).Perm entries :=
    List.perm_insertionSort _ _
  have hkeysperm : (mapKeys (entries.insertionSort DiagramCache.byTimestamp)).Perm
      (mapKeys entries) := hperm.map Prod.fst
  have hsortnd : (mapKeys (entries.insertionSort DiagramCache.byTimestamp)).Nodup :=
    (hkeysperm.nodup_iff).mpr hnd
  set sorted := entries.insertionSort DiagramCache.byTimestamp with hsorted
  set ks := sorted.take (n / 5) with hks
  have hkstake : mapKeys ks = (mapKeys sorted).take (n / 5) := by
    simp [hks, mapKeys, List.map_take]
  have hksnd : (mapKeys ks).Nodup := by
    rw [hkstake]
    exact hsortnd.sublist (List.take_sublist _ _)
  have hksmem : ∀ x ∈ ks, x.1 ∈ mapKeys entries := by
    intro x hx
    have hxs : x ∈ sorted := List.mem_of_mem_take hx
    have hxe : x ∈ entries := hperm.mem_iff.mp hxs
    exact List.mem_map_of_mem Prod.fst hxe
  have hkslen : ks.length = min (n / 5) entries.length := by
    rw [hks, List.length_take, hperm.length_eq]
  have := length_foldl_mapDelete ks entries hnd hksnd hksmem
  rw [DiagramCache.pruneCache]
  rw [← hsorted, ← hks, this, hkslen]

/-- Key distinctness is preserved by `pruneCache`. -/
theorem nodup_pruneCache (entries : List (String × DiagramCacheEntry)) (n : Nat)
    (hnd : (mapKeys entries).Nodup) :
    (mapKeys (DiagramCache.pruneCache entries n)).Nodup := by
  rw [DiagramCache.pruneCache]
  exact nodup_foldl_mapDelete _ entries hnd

/-- One `set` call on a cache with at least five slots preserves the size
bound and key distinctness, and does not touch the configuration. -/
theorem set_preserves_bound (c : DiagramCache) (h5 : 5 ≤ c.maxCacheSize)
    (hnd : (mapKeys c.cache).Nodup) (hsz : c.size ≤ c.maxCacheSize)
    (now : Nat) (source renderedContent diagramType outputFormat : String)
    (file : Option String) :
    let c' := c.set now source renderedContent diagramType outputFormat file
    (mapKeys c'.cache).Nodup ∧ c'.size ≤ c.maxCacheSize ∧
      c'.maxCacheSize = c.maxCacheSize ∧ c'.maxCacheAge = c.maxCacheAge := by
  intro c'
  have hsetnd : (mapKeys (mapSet c.cache
      (DiagramCache.generateKey source diagramType outputFormat file)
      { source := source, renderedContent := renderedContent, timestamp := now
        diagramType := diagramType, outputFormat := outputFormat })).Nodup :=
    nodup_mapKeys_mapSet _ _ _ hnd
  have hsetlen : (mapSet c.cache
      (DiagramCache.generateKey source diagramType outputFormat file)
      { source := source, renderedContent := renderedContent, timestamp := now
        diagramType := diagramType, outputFormat := outputFormat }).length
        ≤ c.cache.length + 1 := by
    rw [length_mapSet]
    split <;> omega
  rw [show c' = c.set now source renderedContent diagramType outputFormat file from rfl]
  simp only [DiagramCache.set]
  split
  · next hgt =>
    refine ⟨nodup_pruneCache _ _ hsetnd, ?_, rfl, rfl⟩
    simp only [DiagramCache.size]
    rw [length_pruneCache _ _ hsetnd]
    have h15 : 1 ≤ c.maxCacheSize / 5 := Nat.one_le_div_iff (by omega) |>.mpr h5
    have hdle : c.maxCacheSize / 5 ≤ c.maxCacheSize := Nat.div_le_self _ _
    simp only [DiagramCache.size] at hsz
    omega
  · next hle =>
    refine ⟨hsetnd, ?_, rfl, rfl⟩
    simp only [DiagramCache.size]
    omega

/-- Invariant of `applySets`: starting from distinct keys and a size within
the bound, every state reached through `set` calls keeps the size within
`maxCacheSize`, provided at least five slots are configured. -/
theorem applySets_preserves_bound (ops : List DiagramCache.SetOp) :
    ∀ (c : DiagramCache), 5 ≤ c.maxCacheSize → (mapKeys c.cache).Nodup →
      c.size ≤ c.maxCacheSize →
      let c' := DiagramCache.applySets c ops
      (mapKeys c'.cache).Nodup ∧ c'.size ≤ c.maxCacheSize ∧
        c'.maxCacheSize = c.maxCacheSize := by
  induction ops with
  | nil =>
    intro c _ hnd hsz
    exact ⟨hnd, hsz, rfl⟩
  | cons op ops ih =>
    intro c h5 hnd hsz
    have hstep := set_preserves_bound c h5 hnd hsz op.now op.source
      op.renderedContent op.diagramType op.outputFormat op.file
    obtain ⟨hnd', hsz', hms', hma'⟩ := hstep
    have := ih (c.set op.now op.source op.renderedContent op.diagramType
      op.outputFormat op.file) (hms' ▸ h5) hnd' (hms' ▸ hsz')
    obtain ⟨h1, h2, h3⟩ := this
    refine ⟨h1, ?_, ?_⟩
    · simpa [DiagramCache.applySets] using (hms' ▸ h2)
    · simpa [DiagramCache.applySets] using (hms' ▸ h3)

/-- C1 (counterexample): the capacity claim fails as stated.  On a cache
configured with maximum size `N = 1`, two `set` calls with distinct keys
leave the size at `2 > 1`: `pruneCache` removes `Math.floor(1 * 0.2) = 0`
entries, so the eviction that runs inside the second `set` deletes nothing. -/
theorem cacheCapacity_counterexample :
    ¬ ((((DiagramCache.mkCache 1 3600000).set 0 "a" "ra" "plantuml" "svg" none).set 1
        "b" "rb" "plantuml" "svg" none).size ≤ 1) := by
  decide

/-- C1 (amended): for every cache configured with maximum size `N ≥ 5` and
every sequence of `set` calls, `size() ≤ N` holds immediately after each
`set` returns (the eviction runs synchronously inside `set`); for `N < 5`
the synchronous eviction removes `Math.floor(N * 0.2) = 0` entries and the
bound fails. -/
theorem cacheCapacity_bound (maxSize maxAge : Nat) (h5 : 5 ≤ maxSize)
    (ops : List DiagramCache.SetOp) :
    (DiagramCache.applySets (DiagramCache.mkCache maxSize maxAge) ops).size ≤ maxSize := by
  have := applySets_preserves_bound ops (DiagramCache.mkCache maxSize maxAge) h5
    (by simp [DiagramCache.mkCache, mapKeys]) (by simp [DiagramCache.mkCache, DiagramCache.size])
  exact this.2.1

/-- C1 (witness): the amended bound applied to a cache of size 5 and six
distinct `set` calls. -/
theorem cacheCapacity_bound_witness :
    5 ≤ 5 ∧
      (DiagramCache.applySets (DiagramCache.mkCache 5 3600000)
        [⟨0, "a", "ra", "plantuml", "svg", none⟩, ⟨1, "b", "rb", "plantuml", "svg", none⟩,
         ⟨2, "c", "rc", "plantuml", "svg", none⟩, ⟨3, "d", "rd", "plantuml", "svg", none⟩,
         ⟨4, "e", "re", "plantuml", "svg", none⟩, ⟨5, "f", "rf", "plantuml", "svg", none⟩]).size ≤ 5 :=
  ⟨by decide, cacheCapacity_bound 5 3600000 (by decide) _⟩

/-- C7: a `get` performed once the entry's age exceeds the configured maximum
age returns a miss, and as a side effect the entry is deleted, so the cache
size afterwards reflects the removal (exactly one entry fewer). -/
theorem cacheAgeExpiry (c : DiagramCache) (now : Nat)
    (source diagramType outputFormat : String) (file : Option String)
    (entry : DiagramCacheEntry)
    (hfound : mapLookup c.cache
      (DiagramCache.generateKey source diagramType outputFormat file) = some entry)
    (hexp : c.maxCacheAge < now - entry.timestamp) :
    (c.get now source diagramType outputFormat file).1 = none ∧
      (c.get now source diagramType outputFormat file).2.size + 1 = c.size := by
  have hnle : ¬ (now - entry.timestamp ≤ c.maxCacheAge) := not_le.mpr hexp
  constructor
  · simp only [DiagramCache.get, hfound, if_neg hnle]
  · simp only [DiagramCache.get, hfound, if_neg hnle, DiagramCache.size]
    exact length_mapDelete c.cache _ entry hfound

/-- C7 (witness): an entry created at time 0 in a cache with maximum age 100
is missed and removed by a `get` at time 101. -/
theorem cacheAgeExpiry_witness :
    (mapLookup ((DiagramCache.mkCache 10 100).set 0 "a" "ra" "plantuml" "svg" none).cache
        (DiagramCache.generateKey "a" "plantuml" "svg" none)
      = some { source := "a", renderedContent := "ra", timestamp := 0,
               diagramType := "plantuml", outputFormat := "svg" }) ∧
    ((((DiagramCache.mkCache 10 100).set 0 "a" "ra" "plantuml" "svg" none).get 101
        "a" "plantuml" "svg" none).1 = none ∧
      (((DiagramCache.mkCache 10 100).set 0 "a" "ra" "plantuml" "svg" none).get 101
        "a" "plantuml" "svg" none).2.size + 1
        = ((DiagramCache.mkCache 10 100).set 0 "a" "ra" "plantuml" "svg" none).size) :=
  ⟨by decide,
    cacheAgeExpiry ((DiagramCache.mkCache 10 100).set 0 "a" "ra" "plantuml" "svg" none)
      101 "a" "plantuml" "svg" none
      { source := "a", renderedContent := "ra", timestamp := 0,
        diagramType := "plantuml", outputFormat := "svg" }
      (by decide) (by decide)⟩

/-! ### Helper lemmas for the language-tag grammar -/

/-- Splitting a run satisfying `p` from a suffix whose head refutes `p`. -/
theorem takeWhile_dropWhile_append (p : Char → Bool) (l1 l2 : List Char)
    (h1 : l1.all p = true) (h2 : ∀ c, l2.head? = some c → p c = false) :
    (l1 ++ l2).takeWhile p = l1 ∧ (l1 ++ l2).dropWhile p = l2 := by
  induction l1 with
  | nil =>
    simp only [List.nil_append]
    cases l2 with
    | nil => simp
    | cons c rest =>
      have := h2 c rfl
      simp [List.takeWhile, List.dropWhile, this]
  | cons a l1 ih =>
    simp only [List.all_cons, Bool.and_eq_true] at h1
    have := ih h1.2
    simp [List.takeWhile, List.dropWhile, h1.1, this.1, this.2]

/-- A JavaScript whitespace character is not a word character. -/
theorem isJsSpace_not_word (c : Char) (h : isJsSpace c = true) :
    isWordChar c = false := by
  simp only [isJsSpace, Bool.or_eq_true, decide_eq_true_eq] at h
  rcases h with ((((h | h) | h) | h) | h) | h <;> subst h <;> decide

/-- A language line of shape `word spaces { inner }` (word characters, then
whitespace, then a brace-wrapped nonempty single-line block) matches the
option-block regex, capturing the word and the inner text. -/
theorem matchLangOpts_wellformed (base spaces inner : List Char)
    (hb : base ≠ []) (hbw : base.all isWordChar = true)
    (hsp : spaces.all isJsSpace = true)
    (hi : inner ≠ []) (hid : inner.all dotMatch = true) :
    DiagramDetector.matchLangOpts (base ++ (spaces ++ '{' :: (inner ++ ['}'])))
      = some (base, inner) := by
  have hhead : ∀ c, (spaces ++ '{' :: (inner ++ ['}'])).head? = some c →
      isWordChar c = false := by
    cases spaces with
    | nil =>
      intro c hc
      simp only [List.nil_append, List.head?_cons, Option.some.injEq] at hc
      subst hc
      decide
    | cons s ss =>
      intro c hc
      simp only [List.cons_append, List.head?_cons, Option.some.injEq] at hc
      simp only [List.all_cons, Bool.and_eq_true] at hsp
      exact hc ▸ isJsSpace_not_word s hsp.1
  have h1 := takeWhile_dropWhile_append isWordChar base
    (spaces ++ '{' :: (inner ++ ['}'])) hbw hhead
  have h2 := takeWhile_dropWhile_append isJsSpace spaces ('{' :: (inner ++ ['}']))
    hsp (by intro c hc; simp only [List.head?_cons, Option.some.injEq] at hc; subst hc; decide)
  have hinnerlen : 1 ≤ inner.length := List.length_pos.mpr hi
  rw [DiagramDetector.matchLangOpts]
  rw [h1.1, h1.2, h2.2]
  have hbe : base.isEmpty = false := by
    cases base with
    | nil => exact absurd rfl hb
    | cons a l => rfl
  rw [hbe]
  simp only [Bool.false_eq_true, if_false]
  have hcond : ((inner ++ ['}']).getLast? = some '}'
      && 2 ≤ (inner ++ ['}']).length && (inner ++ ['}']).dropLast.all dotMatch) = true := by
    rw [List.getLast?_concat, List.dropLast_concat]
    simp only [Bool.and_eq_true, decide_eq_true_eq, List.length_append,
      List.length_cons, List.length_nil]
    exact ⟨⟨trivial, by omega⟩, hid⟩
  rw [hcond]
  rw [if_pos rfl, List.dropLast_concat]

/-- C5 (counterexample): the claim fails as stated.  With `plantuml`
registered, the tag `plantuml{format:svg` (unterminated option block, one
example of a malformed block) does not resolve at all: the regex fails, the
language line is left unchanged with its `{`, and the alias lookup misses,
so `detectDiagram` returns `null` instead of resolving the base identifier. -/
theorem malformedOptions_counterexample :
    DiagramDetector.detectDiagramType
        (DiagramDetector.mkDetector [("plantuml", [])]) "plantuml" = some "plantuml" ∧
      DiagramDetector.detectDiagram (DiagramDetector.mkDetector [("plantuml", [])])
        "A->B" "plantuml\x7bformat:svg" = none := by
  decide

/-- C5 (amended): when the option block is well-formed as a block — the tag
has the shape `word [spaces] { inner }` with a nonempty single-line `inner` —
but the `inner` option list itself is arbitrary (possibly ungrammatical),
the failure is confined to the options: the base identifier is still
resolved whenever it is registered, with an empty or partial option set.
A tag whose brace block does not even match that shape (for example an
unterminated `{`) fails to resolve entirely. -/
theorem malformedOptionsStillResolve (d : DiagramDetector) (source : String)
    (base spaces inner : List Char) (dt : String)
    (hb : base ≠ []) (hbw : base.all isWordChar = true)
    (hsp : spaces.all isJsSpace = true)
    (hi : inner ≠ []) (hid : inner.all dotMatch = true)
    (hres : DiagramDetector.detectDiagramType d (String.mk base) = some dt) :
    ∃ opts, DiagramDetector.detectDiagram d source
        (String.mk (base ++ (spaces ++ '{' :: (inner ++ ['}']))))
      = some { diagramType := dt, source := source,
               language := String.mk base, options := opts } := by
  have hmem : '{' ∈ (base ++ (spaces ++ '{' :: (inner ++ ['}']))) :=
    List.mem_append_right _ (List.mem_append_right _ (List.mem_cons_self _ _))
  have hcontains : (base ++ (spaces ++ '{' :: (inner ++ ['}']))).contains '{' = true :=
    List.elem_eq_true_of_mem hmem
  have hdata : (String.mk (base ++ (spaces ++ '{' :: (inner ++ ['}'])))).data
      = base ++ (spaces ++ '{' :: (inner ++ ['}'])) := rfl
  rw [DiagramDetector.detectDiagram, DiagramDetector.parseLanguageOptions, hdata,
    hcontains]
  rw [if_pos rfl]
  rw [matchLangOpts_wellformed base spaces inner hb hbw hsp hi hid]
  rw [hres]
  exact ⟨_, rfl⟩

/-- C5 (witness): the tag `plantuml{oops}` has a well-formed block whose
single option field is ungrammatical (no `key:value`), yet the base
identifier still resolves. -/
theorem malformedOptionsStillResolve_witness :
    ∃ opts, DiagramDetector.detectDiagram (DiagramDetector.mkDetector [("plantuml", [])])
        "A->B" (String.mk (("plantuml").data ++ ([] ++ '{' :: (("oops").data ++ ['}']))))
      = some { diagramType := "plantuml", source := "A->B",
               language := String.mk ("plantuml").data, options := opts } :=
  malformedOptionsStillResolve (DiagramDetector.mkDetector [("plantuml", [])]) "A->B"
    ("plantuml").data [] ("oops").data "plantuml"
    (by decide) (by decide) (by decide) (by decide) (by decide) (by decide)

/-! ### Helper lemmas for the encoder -/

/-- The URL-safe substitution never produces `+` or `/`. -/
theorem urlSafeChar_ne (c : Char) : urlSafeChar c ≠ '+' ∧ urlSafeChar c ≠ '/' := by
  rw [urlSafeChar]
  by_cases h1 : c = '+'
  · rw [if_pos h1]
    exact ⟨by decide, by decide⟩
  · rw [if_neg h1]
    by_cases h2 : c = '/'
    · rw [if_pos h2]
      exact ⟨by decide, by decide⟩
    · rw [if_neg h2]
      exact ⟨h1, h2⟩

/-- Membership in `stripTrailingEq` implies membership in the original list. -/
theorem mem_of_mem_stripTrailingEq (l : List Char) (c : Char)
    (h : c ∈ stripTrailingEq l) : c ∈ l := by
  rw [stripTrailingEq] at h
  rw [List.mem_reverse] at h
  have hsub := List.dropWhile_sublist (l := l.reverse) (fun c => c = '=')
  have := hsub.mem h
  exact List.mem_reverse.mp this

/-- The head of a `dropWhile` result refutes the predicate. -/
theorem head_dropWhile_false (p : Char → Bool) :
    ∀ (l : List Char) (c : Char), (l.dropWhile p).head? = some c → p c = false := by
  intro l
  induction l with
  | nil => intro c h; simp [List.dropWhile] at h
  | cons a rest ih =>
    intro c h
    by_cases hp : p a
    · rw [List.dropWhile_cons_of_pos hp] at h
      exact ih c h
    · rw [List.dropWhile_cons_of_neg hp] at h
      simp only [List.head?_cons, Option.some.injEq] at h
      exact h ▸ (Bool.not_eq_true _).mp hp

/-- The last element of `stripTrailingEq` is never `=`. -/
theorem getLast_stripTrailingEq (l : List Char) :
    (stripTrailingEq l).getLast? ≠ some '=' := by
  rw [stripTrailingEq, List.getLast?_reverse]
  intro h
  have := head_dropWhile_false (fun c => c = '=') l.reverse '=' h
  simp at this

/-- C4: every token the encoder can produce contains no `+` and no `/`, and
does not end in `=`: the final step substitutes `+`→`-` and `/`→`_` and
strips the trailing `=` padding of the base64 encoding. -/
theorem encoderSafety (deflate : String → Except String (List Nat))
    (source tok : String)
    (h : KrokiClient.encodeDiagramSource deflate source = Except.ok tok) :
    '+' ∉ tok.data ∧ '/' ∉ tok.data ∧ tok.data.getLast? ≠ some '=' := by
  rw [KrokiClient.encodeDiagramSource] at h
  cases hd : deflate (KrokiClient.normalizeSource source) with
  | error e => rw [hd] at h; exact absurd h (by simp)
  | ok compressed =>
    rw [hd] at h
    simp only [Except.ok.injEq] at h
    subst h
    have hdata : (KrokiClient.urlSafeBase64 compressed).data
        = stripTrailingEq ((base64Encode compressed).map urlSafeChar) := rfl
    rw [hdata]
    refine ⟨?_, ?_, getLast_stripTrailingEq _⟩
    · intro hmem
      have := mem_of_mem_stripTrailingEq _ _ hmem
      rw [List.mem_map] at this
      obtain ⟨c, _, hc⟩ := this
      exact (urlSafeChar_ne c).1 hc
    · intro hmem
      have := mem_of_mem_stripTrailingEq _ _ hmem
      rw [List.mem_map] at this
      obtain ⟨c, _, hc⟩ := this
      exact (urlSafeChar_ne c).2 hc

/-- C4 (witness): the encoder applied to `A->B` with a stand-in byte-level
`deflate`; the produced token `QS0-Qg` indeed has no `+`, `/` or trailing `=`. -/
theorem encoderSafety_witness :
    (KrokiClient.encodeDiagramSource (fun s => Except.ok (s.data.map Char.toNat))
        "A->B" = Except.ok "QS0-Qg") ∧
      ('+' ∉ ("QS0-Qg").data ∧ '/' ∉ ("QS0-Qg").data ∧
        ("QS0-Qg").data.getLast? ≠ some '=') :=
  ⟨by decide,
    encoderSafety (fun s => Except.ok (s.data.map Char.toNat)) "A->B" "QS0-Qg" (by decide)⟩

/-! ### Helper lemmas for the request pipeline -/

/-- Appending to a nonempty string stays nonempty. -/
theorem append_ne_empty_left (a b : String) (ha : a ≠ "") : a ++ b ≠ "" := by
  intro h
  apply ha
  have hd : a.data ++ b.data = [] := congrArg String.data h
  have : a.data = [] := (List.append_eq_nil.mp hd).1
  exact String.ext this

/-- The normalized retry count is always at least one attempt. -/
theorem jsNatOr_one_pos (o : Option Nat) : ∃ m, jsNatOr o 1 = m + 1 := by
  cases o with
  | none => exact ⟨0, rfl⟩
  | some k =>
    cases k with
    | zero => exact ⟨0, rfl⟩
    | succ m => exact ⟨m, by simp [jsNatOr]⟩

/-- The retry loop against a transport that always answers with the same
5xx response: all attempts are consumed and the loop throws the recorded
server error. -/
theorem retryAux_const5xx (transport : Transport) (r : RequestUrlResponse)
    (htr : ∀ i, transport i = ReqOutcome.resp r) (h5 : 500 ≤ r.status) :
    ∀ (n counter : Nat) (lastError : Option JsError), 1 ≤ n →
      KrokiClient.sendRequestWithRetryAux transport n counter lastError
        = (Except.error ⟨"Error", "Server error: " ++ toString r.status ++ " " ++ r.text⟩, n) := by
  have hn2 : ¬ (200 ≤ r.status ∧ r.status < 300) := by omega
  intro n
  induction n with
  | zero => intro counter lastError h; omega
  | succ n ih =>
    intro counter lastError _
    rw [KrokiClient.sendRequestWithRetryAux]
    rw [htr counter]
    simp only [if_neg hn2, if_pos h5]
    cases n with
    | zero =>
      rw [KrokiClient.sendRequestWithRetryAux]
      simp [Option.getD]
    | succ m =>
      rw [ih (counter + 1) _ (by omega)]

/-- The retry loop returns immediately on a first-attempt 2xx response. -/
theorem retryAux_first2xx (transport : Transport) (r : RequestUrlResponse)
    (counter n : Nat) (lastError : Option JsError)
    (htr : transport counter = ReqOutcome.resp r)
    (h2 : 200 ≤ r.status ∧ r.status < 300) :
    KrokiClient.sendRequestWithRetryAux transport (n + 1) counter lastError
      = (Except.ok r, 1) := by
  rw [KrokiClient.sendRequestWithRetryAux, htr]
  simp only [if_pos h2]

/-- The retry loop makes at least one transport call when allowed at least
one attempt. -/
theorem retryAux_calls_pos (transport : Transport) :
    ∀ (n counter : Nat) (lastError : Option JsError), 1 ≤ n →
      1 ≤ (KrokiClient.sendRequestWithRetryAux transport n counter lastError).2 := by
  intro n counter lastError hn
  cases n with
  | zero => omega
  | succ m =>
    rw [KrokiClient.sendRequestWithRetryAux]
    cases transport counter with
    | resp r =>
      by_cases h2 : 200 ≤ r.status ∧ r.status < 300
      · simp [h2]
      · by_cases h5 : 500 ≤ r.status
        · simp [h2, h5]
        · simp [h2, h5]
    | err e =>
      by_cases hre : e.name = "AbortError" ∨ listHasSub ("fetch").data e.message.data
      · simp [hre]
      · simp [hre]

/-- Log of `sendGetRequest` when encoding succeeds: one GET request parameter
per transport call made by the retry loop. -/
theorem sendGet_log (deflate : String → Except String (List Nat))
    (transport : Transport) (options : KrokiRequestOptions) (counter : Nat)
    (tok : String)
    (henc : KrokiClient.encodeDiagramSource deflate options.source = Except.ok tok) :
    (KrokiClient.sendGetRequest deflate transport options counter).2.2
      = List.replicate
          (KrokiClient.sendRequestWithRetry transport (jsNatOr options.retryCount 1) counter).2
          { url := KrokiClient.normalizeServerUrl options.serverUrl ++ options.diagramType
              ++ "/" ++ options.outputFormat ++ "/" ++ tok,
            method := "GET", body := none } := by
  rw [KrokiClient.sendGetRequest, henc]
  cases h : (KrokiClient.sendRequestWithRetry transport (jsNatOr options.retryCount 1) counter).1
    <;> simp [h]

/-- Log of `sendPostRequest`: one POST request parameter per transport call
made by the retry loop. -/
theorem sendPost_log (transport : Transport) (options : KrokiRequestOptions)
    (counter : Nat) :
    (KrokiClient.sendPostRequest transport options counter).2.2
      = List.replicate
          (KrokiClient.sendRequestWithRetry transport (jsNatOr options.retryCount 1) counter).2
          { url := KrokiClient.normalizeServerUrl options.serverUrl ++ options.diagramType
              ++ "/" ++ options.outputFormat,
            method := "POST", body := some options.source } := by
  rw [KrokiClient.sendPostRequest]
  cases h : (KrokiClient.sendRequestWithRetry transport (jsNatOr options.retryCount 1) counter).1
    <;> simp [h]

/-- A GET transport log contains no POST calls. -/
theorem postCalls_sendGet (deflate : String → Except String (List Nat))
    (transport : Transport) (options : KrokiRequestOptions) (counter : Nat) :
    DiagramRenderer.postCalls (KrokiClient.sendGetRequest deflate transport options counter).2.2
      = 0 := by
  cases henc : KrokiClient.encodeDiagramSource deflate options.source with
  | error msg =>
    rw [KrokiClient.sendGetRequest, henc]
    rfl
  | ok tok =>
    rw [sendGet_log deflate transport options counter tok henc]
    rw [DiagramRenderer.postCalls, List.filter_replicate]
    simp

/-- A POST transport log contains no GET calls. -/
theorem getCalls_sendPost (transport : Transport) (options : KrokiRequestOptions)
    (counter : Nat) :
    DiagramRenderer.getCalls (KrokiClient.sendPostRequest transport options counter).2.2
      = 0 := by
  rw [sendPost_log transport options counter]
  rw [DiagramRenderer.getCalls, List.filter_replicate]
  simp

/-- A POST request sequence makes at least one transport call. -/
theorem sendPost_log_pos (transport : Transport) (options : KrokiRequestOptions)
    (counter : Nat) :
    1 ≤ (KrokiClient.sendPostRequest transport options counter).2.2.length := by
  rw [sendPost_log transport options counter, List.length_replicate]
  obtain ⟨m, hm⟩ := jsNatOr_one_pos options.retryCount
  rw [KrokiClient.sendRequestWithRetry, hm]
  exact retryAux_calls_pos transport (m + 1) counter none (by omega)

/-- The server-error message recorded by the retry loop is never empty. -/
theorem serverErrMsg_ne_empty (r : RequestUrlResponse) :
    ("Server error: " ++ toString r.status ++ " " ++ r.text) ≠ "" := by
  apply append_ne_empty_left
  apply append_ne_empty_left
  apply append_ne_empty_left
  decide

/-- Result of `sendGetRequest` against a transport that always answers with
the same 5xx response: every allowed attempt is consumed, the loop's thrown
error is caught, and the failure carries the error message but no status
code. -/
theorem sendGet_const5xx (deflate : String → Except String (List Nat))
    (transport : Transport) (options : KrokiRequestOptions) (counter : Nat)
    (tok : String) (r : RequestUrlResponse)
    (henc : KrokiClient.encodeDiagramSource deflate options.source = Except.ok tok)
    (htr : ∀ i, transport i = ReqOutcome.resp r) (h5 : 500 ≤ r.status) :
    KrokiClient.sendGetRequest deflate transport options counter
      = ({ success := false, data := none,
           error := some ("Server error: " ++ toString r.status ++ " " ++ r.text),
           statusCode := none },
         counter + jsNatOr options.retryCount 1,
         List.replicate (jsNatOr options.retryCount 1)
           { url := KrokiClient.normalizeServerUrl options.serverUrl ++ options.diagramType
               ++ "/" ++ options.outputFormat ++ "/" ++ tok,
             method := "GET", body := none }) := by
  obtain ⟨m, hm⟩ := jsNatOr_one_pos options.retryCount
  rw [KrokiClient.sendGetRequest, henc, KrokiClient.sendRequestWithRetry, hm]
  rw [retryAux_const5xx transport r htr h5 (m + 1) counter none (by omega)]
  simp [jsStrOr, serverErrMsg_ne_empty r]

/-- Result of `sendPostRequest` against a transport that always answers with
the same 5xx response. -/
theorem sendPost_const5xx (transport : Transport) (options : KrokiRequestOptions)
    (counter : Nat) (r : RequestUrlResponse)
    (htr : ∀ i, transport i = ReqOutcome.resp r) (h5 : 500 ≤ r.status) :
    KrokiClient.sendPostRequest transport options counter
      = ({ success := false, data := none,
           error := some ("Server error: " ++ toString r.status ++ " " ++ r.text),
           statusCode := none },
         counter + jsNatOr options.retryCount 1,
         List.replicate (jsNatOr options.retryCount 1)
           { url := KrokiClient.normalizeServerUrl options.serverUrl ++ options.diagramType
               ++ "/" ++ options.outputFormat,
             method := "POST", body := some options.source }) := by
  obtain ⟨m, hm⟩ := jsNatOr_one_pos options.retryCount
  rw [KrokiClient.sendPostRequest, KrokiClient.sendRequestWithRetry, hm]
  rw [retryAux_const5xx transport r htr h5 (m + 1) counter none (by omega)]
  simp [jsStrOr, serverErrMsg_ne_empty r]

/-- Result of `sendGetRequest` whose first transport attempt answers 2xx. -/
theorem sendGet_first2xx (deflate : String → Except String (List Nat))
    (transport : Transport) (options : KrokiRequestOptions) (counter : Nat)
    (tok : String) (r : RequestUrlResponse)
    (henc : KrokiClient.encodeDiagramSource deflate options.source = Except.ok tok)
    (htr : transport counter = ReqOutcome.resp r)
    (h2 : 200 ≤ r.status ∧ r.status < 300) :
    KrokiClient.sendGetRequest deflate transport options counter
      = ({ success := true, data := some (KrokiClient.normalizedPayload r),
           error := none, statusCode := some r.status },
         counter + 1,
         [{ url := KrokiClient.normalizeServerUrl options.serverUrl ++ options.diagramType
              ++ "/" ++ options.outputFormat ++ "/" ++ tok,
            method := "GET", body := none }]) := by
  obtain ⟨m, hm⟩ := jsNatOr_one_pos options.retryCount
  rw [KrokiClient.sendGetRequest, henc, KrokiClient.sendRequestWithRetry, hm]
  rw [retryAux_first2xx transport r counter m none htr h2]
  simp [KrokiClient.processResponse, h2]

/-- C2 (counterexample): the claim fails as stated.  With `retryCount = 3`
and a transport that always returns 503, the final `KrokiResponse` is a
failure, but it does not carry the last observed status code: the retry loop
throws an `Error` whose message embeds the 503, the `catch` converts it into
a failure with the message only, and the `statusCode` field is left unset. -/
theorem retryExhaustion_counterexample :
    ((KrokiClient.sendGetRequest (fun s => Except.ok (s.data.map Char.toNat))
        (fun _ => ReqOutcome.resp ⟨503, "Service Unavailable", none, ""⟩)
        { diagramType := "plantuml", outputFormat := "svg", source := "A->B",
          serverUrl := "https://kroki.io", retryCount := some 3 } 0).1.success = false) ∧
      (KrokiClient.sendGetRequest (fun s => Except.ok (s.data.map Char.toNat))
        (fun _ => ReqOutcome.resp ⟨503, "Service Unavailable", none, ""⟩)
        { diagramType := "plantuml", outputFormat := "svg", source := "A->B",
          serverUrl := "https://kroki.io", retryCount := some 3 } 0).1.statusCode
        ≠ some 503 := by
  decide

/-- C2 (amended): with `retryCount = 3`, against a transport that always
returns status 503, each transport strategy (GET and POST) issues exactly 3
attempts, and the final result is a failure whose error message embeds the
last observed status code (503); the `statusCode` field of the failure is
not populated. -/
theorem retryExhaustion (deflate : String → Except String (List Nat))
    (transport : Transport) (options : KrokiRequestOptions) (counter : Nat)
    (tok t ct : String) (ab : Option (List Nat))
    (henc : KrokiClient.encodeDiagramSource deflate options.source = Except.ok tok)
    (hret : options.retryCount = some 3)
    (htr : ∀ i, transport i = ReqOutcome.resp ⟨503, t, ab, ct⟩) :
    (KrokiClient.sendGetRequest deflate transport options counter).2.2.length = 3 ∧
    (KrokiClient.sendGetRequest deflate transport options counter).1.success = false ∧
    (KrokiClient.sendGetRequest deflate transport options counter).1.error
      = some ("Server error: " ++ toString (503 : Nat) ++ " " ++ t) ∧
    (KrokiClient.sendGetRequest deflate transport options counter).1.statusCode = none ∧
    (KrokiClient.sendPostRequest transport options counter).2.2.length = 3 ∧
    (KrokiClient.sendPostRequest transport options counter).1.success = false ∧
    (KrokiClient.sendPostRequest transport options counter).1.error
      = some ("Server error: " ++ toString (503 : Nat) ++ " " ++ t) ∧
    (KrokiClient.sendPostRequest transport options counter).1.statusCode = none := by
  have hg := sendGet_const5xx deflate transport options counter tok ⟨503, t, ab, ct⟩
    henc htr (by show (500 : Nat) ≤ 503; decide)
  have hp := sendPost_const5xx transport options counter ⟨503, t, ab, ct⟩
    htr (by show (500 : Nat) ≤ 503; decide)
  rw [hg, hp]
  rw [hret]
  simp [jsNatOr]

/-- C2 (witness): the amended statement at a concrete always-503 transport. -/
theorem retryExhaustion_witness :
    (KrokiClient.sendGetRequest (fun s => Except.ok (s.data.map Char.toNat))
        (fun _ => ReqOutcome.resp ⟨503, "Service Unavailable", none, ""⟩)
        { diagramType := "plantuml", outputFormat := "svg", source := "A->B",
          serverUrl := "https://kroki.io", retryCount := some 3 } 0).2.2.length = 3 ∧
    (KrokiClient.sendGetRequest (fun s => Except.ok (s.data.map Char.toNat))
        (fun _ => ReqOutcome.resp ⟨503, "Service Unavailable", none, ""⟩)
        { diagramType := "plantuml", outputFormat := "svg", source := "A->B",
          serverUrl := "https://kroki.io", retryCount := some 3 } 0).1.success = false ∧
    (KrokiClient.sendGetRequest (fun s => Except.ok (s.data.map Char.toNat))
        (fun _ => ReqOutcome.resp ⟨503, "Service Unavailable", none, ""⟩)
        { diagramType := "plantuml", outputFormat := "svg", source := "A->B",
          serverUrl := "https://kroki.io", retryCount := some 3 } 0).1.error
      = some ("Server error: " ++ toString (503 : Nat) ++ " " ++ "Service Unavailable") ∧
    (KrokiClient.sendGetRequest (fun s => Except.ok (s.data.map Char.toNat))
        (fun _ => ReqOutcome.resp ⟨503, "Service Unavailable", none, ""⟩)
        { diagramType := "plantuml", outputFormat := "svg", source := "A->B",
          serverUrl := "https://kroki.io", retryCount := some 3 } 0).1.statusCode = none ∧
    (KrokiClient.sendPostRequest
        (fun _ => ReqOutcome.resp ⟨503, "Service Unavailable", none, ""⟩)
        { diagramType := "plantuml", outputFormat := "svg", source := "A->B",
          serverUrl := "https://kroki.io", retryCount := some 3 } 0).2.2.length = 3 ∧
    (KrokiClient.sendPostRequest
        (fun _ => ReqOutcome.resp ⟨503, "Service Unavailable", none, ""⟩)
        { diagramType := "plantuml", outputFormat := "svg", source := "A->B",
          serverUrl := "https://kroki.io", retryCount := some 3 } 0).1.success = false ∧
    (KrokiClient.sendPostRequest
        (fun _ => ReqOutcome.resp ⟨503, "Service Unavailable", none, ""⟩)
        { diagramType := "plantuml", outputFormat := "svg", source := "A->B",
          serverUrl := "https://kroki.io", retryCount := some 3 } 0).1.error
      = some ("Server error: " ++ toString (503 : Nat) ++ " " ++ "Service Unavailable") ∧
    (KrokiClient.sendPostRequest
        (fun _ => ReqOutcome.resp ⟨503, "Service Unavailable", none, ""⟩)
        { diagramType := "plantuml", outputFormat := "svg", source := "A->B",
          serverUrl := "https://kroki.io", retryCount := some 3 } 0).1.statusCode = none :=
  retryExhaustion (fun s => Except.ok (s.data.map Char.toNat))
    (fun _ => ReqOutcome.resp ⟨503, "Service Unavailable", none, ""⟩)
    { diagramType := "plantuml", outputFormat := "svg", source := "A->B",
      serverUrl := "https://kroki.io", retryCount := some 3 } 0
    "QS0-Qg" "Service Unavailable" "" none (by decide) rfl (fun _ => rfl)

/-- Normalization always yields either a populated success or a failure with
an error message. -/
theorem processResponse_total (r : RequestUrlResponse) :
    ((KrokiClient.processResponse r).success = true ∧
        (KrokiClient.processResponse r).data.isSome = true) ∨
      ((KrokiClient.processResponse r).success = false ∧
        (KrokiClient.processResponse r).error.isSome = true) := by
  rw [KrokiClient.processResponse]
  by_cases h : 200 ≤ r.status ∧ r.status < 300
  · rw [if_pos h]
    exact Or.inl ⟨rfl, rfl⟩
  · rw [if_neg h]
    exact Or.inr ⟨rfl, rfl⟩

/-- C9: `sendGetRequest` and `sendPostRequest` are total at the public
interface: every call returns a `KrokiResponse` — a populated success, or a
failure carrying an error message — and no internal error (encoding failure,
thrown transport error, exhausted retries) escapes as an exception. -/
theorem clientTotality (deflate : String → Except String (List Nat))
    (transport : Transport) (options : KrokiRequestOptions) (counter : Nat) :
    (((KrokiClient.sendGetRequest deflate transport options counter).1.success = true ∧
        (KrokiClient.sendGetRequest deflate transport options counter).1.data.isSome = true) ∨
      ((KrokiClient.sendGetRequest deflate transport options counter).1.success = false ∧
        (KrokiClient.sendGetRequest deflate transport options counter).1.error.isSome = true)) ∧
    (((KrokiClient.sendPostRequest transport options counter).1.success = true ∧
        (KrokiClient.sendPostRequest transport options counter).1.data.isSome = true) ∨
      ((KrokiClient.sendPostRequest transport options counter).1.success = false ∧
        (KrokiClient.sendPostRequest transport options counter).1.error.isSome = true)) := by
  constructor
  · cases henc : KrokiClient.encodeDiagramSource deflate options.source with
    | error msg =>
      rw [KrokiClient.sendGetRequest, henc]
      exact Or.inr ⟨rfl, rfl⟩
    | ok tok =>
      rw [KrokiClient.sendGetRequest, henc]
      cases hres : (KrokiClient.sendRequestWithRetry transport
          (jsNatOr options.retryCount 1) counter).1 with
      | ok r =>
        simp only [hres]
        exact processResponse_total r
      | error e =>
        simp [hres]
  · rw [KrokiClient.sendPostRequest]
    cases hres : (KrokiClient.sendRequestWithRetry transport
        (jsNatOr options.retryCount 1) counter).1 with
    | ok r =>
      simp only [hres]
      exact processResponse_total r
    | error e =>
      simp [hres]

/-- Reduction of `renderDiagram` when caching is disabled: the cache is
neither read nor written, and the result is determined by the GET attempt
and the conditional POST fallback. -/
theorem renderDiagram_noCache (deflate : String → Except String (List Nat))
    (transport : Transport) (now : Nat) (cache : DiagramCache) (counter : Nat)
    (source diagramType : String) (options : DiagramRenderOptions)
    (hnc : useCacheOn options = false) :
    DiagramRenderer.renderDiagram deflate transport now cache counter source diagramType options
      = (if (if (KrokiClient.sendGetRequest deflate transport
                  (DiagramRenderer.mkRequestOptions source diagramType options) counter).1.success
                = false
              ∧ (KrokiClient.sendGetRequest deflate transport
                  (DiagramRenderer.mkRequestOptions source diagramType options) counter).1.statusCode
                ≠ some 400
            then
              ((KrokiClient.sendPostRequest transport
                  (DiagramRenderer.mkRequestOptions source diagramType options)
                  (KrokiClient.sendGetRequest deflate transport
                    (DiagramRenderer.mkRequestOptions source diagramType options) counter).2.1).1,
               (KrokiClient.sendPostRequest transport
                  (DiagramRenderer.mkRequestOptions source diagramType options)
                  (KrokiClient.sendGetRequest deflate transport
                    (DiagramRenderer.mkRequestOptions source diagramType options) counter).2.1).2.1,
               (KrokiClient.sendGetRequest deflate transport
                  (DiagramRenderer.mkRequestOptions source diagramType options) counter).2.2
                 ++ (KrokiClient.sendPostRequest transport
                      (DiagramRenderer.mkRequestOptions source diagramType options)
                      (KrokiClient.sendGetRequest deflate transport
                        (DiagramRenderer.mkRequestOptions source diagramType options) counter).2.1).2.2)
            else KrokiClient.sendGetRequest deflate transport
              (DiagramRenderer.mkRequestOptions source diagramType options) counter).1.success = true
           ∧ jsTruthyStr (if (KrokiClient.sendGetRequest deflate transport
                  (DiagramRenderer.mkRequestOptions source diagramType options) counter).1.success
                = false
              ∧ (KrokiClient.sendGetRequest deflate transport
                  (DiagramRenderer.mkRequestOptions source diagramType options) counter).1.statusCode
                ≠ some 400
            then
              ((KrokiClient.sendPostRequest transport
                  (DiagramRenderer.mkRequestOptions source diagramType options)
                  (KrokiClient.sendGetRequest deflate transport
                    (DiagramRenderer.mkRequestOptions source diagramType options) counter).2.1).1,
               (KrokiClient.sendPostRequest transport
                  (DiagramRenderer.mkRequestOptions source diagramType options)
                  (KrokiClient.sendGetRequest deflate transport
                    (DiagramRenderer.mkRequestOptions source diagramType options) counter).2.1).2.1,
               (KrokiClient.sendGetRequest deflate transport
                  (DiagramRenderer.mkRequestOptions source diagramType options) counter).2.2
                 ++ (KrokiClient.sendPostRequest transport
                      (DiagramRenderer.mkRequestOptions source diagramType options)
                      (KrokiClient.sendGetRequest deflate transport
                        (DiagramRenderer.mkRequestOptions source diagramType options) counter).2.1).2.2)
            else KrokiClient.sendGetRequest deflate transport
              (DiagramRenderer.mkRequestOptions source diagramType options) counter).1.data = true
         then
           { result := Except.ok ((if (KrokiClient.sendGetRequest deflate transport
                  (DiagramRenderer.mkRequestOptions source diagramType options) counter).1.success
                = false
              ∧ (KrokiClient.sendGetRequest deflate transport
                  (DiagramRenderer.mkRequestOptions source diagramType options) counter).1.statusCode
                ≠ some 400
            then
              ((KrokiClient.sendPostRequest transport
                  (DiagramRenderer.mkRequestOptions source diagramType options)
                  (KrokiClient.sendGetRequest deflate transport
                    (DiagramRenderer.mkRequestOptions source diagramType options) counter).2.1).1,
               (KrokiClient.sendPostRequest transport
                  (DiagramRenderer.mkRequestOptions source diagramType options)
                  (KrokiClient.sendGetRequest deflate transport
                    (DiagramRenderer.mkRequestOptions source diagramType options) counter).2.1).2.1,
               (KrokiClient.sendGetRequest deflate transport
                  (DiagramRenderer.mkRequestOptions source diagramType options) counter).2.2
                 ++ (KrokiClient.sendPostRequest transport
                      (DiagramRenderer.mkRequestOptions source diagramType options)
                      (KrokiClient.sendGetRequest deflate transport
                        (DiagramRenderer.mkRequestOptions source diagramType options) counter).2.1).2.2)
            else KrokiClient.sendGetRequest deflate transport
              (DiagramRenderer.mkRequestOptions source diagramType options) counter).1.data.getD ("")),
             cache := cache,
             counter := (if (KrokiClient.sendGetRequest deflate transport
                  (DiagramRenderer.mkRequestOptions source diagramType options) counter).1.success
                = false
              ∧ (KrokiClient.sendGetRequest deflate transport
                  (DiagramRenderer.mkRequestOptions source diagramType options) counter).1.statusCode
                ≠ some 400
            then
              ((KrokiClient.sendPostRequest transport
                  (DiagramRenderer.mkRequestOptions source diagramType options)
                  (KrokiClient.sendGetRequest deflate transport
                    (DiagramRenderer.mkRequestOptions source diagramType options) counter).2.1).1,
               (KrokiClient.sendPostRequest transport
                  (DiagramRenderer.mkRequestOptions source diagramType options)
                  (KrokiClient.sendGetRequest deflate transport
                    (DiagramRenderer.mkRequestOptions source diagramType options) counter).2.1).2.1,
               (KrokiClient.sendGetRequest deflate transport
                  (DiagramRenderer.mkRequestOptions source diagramType options) counter).2.2
                 ++ (KrokiClient.sendPostRequest transport
                      (DiagramRenderer.mkRequestOptions source diagramType options)
                      (KrokiClient.sendGetRequest deflate transport
                        (DiagramRenderer.mkRequestOptions source diagramType options) counter).2.1).2.2)
            else KrokiClient.sendGetRequest deflate transport
              (DiagramRenderer.mkRequestOptions source diagramType options) counter).2.1,
             log := (if (KrokiClient.sendGetRequest deflate transport
                  (DiagramRenderer.mkRequestOptions source diagramType options) counter).1.success
                = false
              ∧ (KrokiClient.sendGetRequest deflate transport
                  (DiagramRenderer.mkRequestOptions source diagramType options) counter).1.statusCode
                ≠ some 400
            then
              ((KrokiClient.sendPostRequest transport
                  (DiagramRenderer.mkRequestOptions source diagramType options)
                  (KrokiClient.sendGetRequest deflate transport
                    (DiagramRenderer.mkRequestOptions source diagramType options) counter).2.1).1,
               (KrokiClient.sendPostRequest transport
                  (DiagramRenderer.mkRequestOptions source diagramType options)
                  (KrokiClient.sendGetRequest deflate transport
                    (DiagramRenderer.mkRequestOptions source diagramType options) counter).2.1).2.1,
               (KrokiClient.sendGetRequest deflate transport
                  (DiagramRenderer.mkRequestOptions source diagramType options) counter).2.2
                 ++ (KrokiClient.sendPostRequest transport
                      (DiagramRenderer.mkRequestOptions source diagramType options)
                      (KrokiClient.sendGetRequest deflate transport
                        (DiagramRenderer.mkRequestOptions source diagramType options) counter).2.1).2.2)
            else KrokiClient.sendGetRequest deflate transport
              (DiagramRenderer.mkRequestOptions source diagramType options) counter).2.2 }
         else
           { result := Except.error ("Failed to render diagram: "
               ++ jsStrOr (if (KrokiClient.sendGetRequest deflate transport
                  (DiagramRenderer.mkRequestOptions source diagramType options) counter).1.success
                = false
              ∧ (KrokiClient.sendGetRequest deflate transport
                  (DiagramRenderer.mkRequestOptions source diagramType options) counter).1.statusCode
                ≠ some 400
            then
              ((KrokiClient.sendPostRequest transport
                  (DiagramRenderer.mkRequestOptions source diagramType options)
                  (KrokiClient.sendGetRequest deflate transport
                    (DiagramRenderer.mkRequestOptions source diagramType options) counter).2.1).1,
               (KrokiClient.sendPostRequest transport
                  (DiagramRenderer.mkRequestOptions source diagramType options)
                  (KrokiClient.sendGetRequest deflate transport
                    (DiagramRenderer.mkRequestOptions source diagramType options) counter).2.1).2.1,
               (KrokiClient.sendGetRequest deflate transport
                  (DiagramRenderer.mkRequestOptions source diagramType options) counter).2.2
                 ++ (KrokiClient.sendPostRequest transport
                      (DiagramRenderer.mkRequestOptions source diagramType options)
                      (KrokiClient.sendGetRequest deflate transport
                        (DiagramRenderer.mkRequestOptions source diagramType options) counter).2.1).2.2)
            else KrokiClient.sendGetRequest deflate transport
              (DiagramRenderer.mkRequestOptions source diagramType options) counter).1.error
              ("Unknown error")),
             cache := cache,
             counter := (if (KrokiClient.sendGetRequest deflate transport
                  (DiagramRenderer.mkRequestOptions source diagramType options) counter).1.success
                = false
              ∧ (KrokiClient.sendGetRequest deflate transport
                  (DiagramRenderer.mkRequestOptions source diagramType options) counter).1.statusCode
                ≠ some 400
            then
              ((KrokiClient.sendPostRequest transport
                  (DiagramRenderer.mkRequestOptions source diagramType options)
                  (KrokiClient.sendGetRequest deflate transport
                    (DiagramRenderer.mkRequestOptions source diagramType options) counter).2.1).1,
               (KrokiClient.sendPostRequest transport
                  (DiagramRenderer.mkRequestOptions source diagramType options)
                  (KrokiClient.sendGetRequest deflate transport
                    (DiagramRenderer.mkRequestOptions source diagramType options) counter).2.1).2.1,
               (KrokiClient.sendGetRequest deflate transport
                  (DiagramRenderer.mkRequestOptions source diagramType options) counter).2.2
                 ++ (KrokiClient.sendPostRequest transport
                      (DiagramRenderer.mkRequestOptions source diagramType options)
                      (KrokiClient.sendGetRequest deflate transport
                        (DiagramRenderer.mkRequestOptions source diagramType options) counter).2.1).2.2)
            else KrokiClient.sendGetRequest deflate transport
              (DiagramRenderer.mkRequestOptions source diagramType options) counter).2.1,
             log := (if (KrokiClient.sendGetRequest deflate transport
                  (DiagramRenderer.mkRequestOptions source diagramType options) counter).1.success
                = false
              ∧ (KrokiClient.sendGetRequest deflate transport
                  (DiagramRenderer.mkRequestOptions source diagramType options) counter).1.statusCode
                ≠ some 400
            then
              ((KrokiClient.sendPostRequest transport
                  (DiagramRenderer.mkRequestOptions source diagramType options)
                  (KrokiClient.sendGetRequest deflate transport
                    (DiagramRenderer.mkRequestOptions source diagramType options) counter).2.1).1,
               (KrokiClient.sendPostRequest transport
                  (DiagramRenderer.mkRequestOptions source diagramType options)
                  (KrokiClient.sendGetRequest deflate transport
                    (DiagramRenderer.mkRequestOptions source diagramType options) counter).2.1).2.1,
               (KrokiClient.sendGetRequest deflate transport
                  (DiagramRenderer.mkRequestOptions source diagramType options) counter).2.2
                 ++ (KrokiClient.sendPostRequest transport
                      (DiagramRenderer.mkRequestOptions source diagramType options)
                      (KrokiClient.sendGetRequest deflate transport
                        (DiagramRenderer.mkRequestOptions source diagramType options) counter).2.1).2.2)
            else KrokiClient.sendGetRequest deflate transport
              (DiagramRenderer.mkRequestOptions source diagramType options) counter).2.2 }) := by
  rw [DiagramRenderer.renderDiagram, hnc]
  rfl

/-- C3: for a render request that reaches the network (caching disabled
here), a GET result that is a failure with status exactly 400 triggers no
POST attempt and the GET error is surfaced as the thrown message, while a
GET failure with any other status — or with no status at all — triggers
exactly one POST attempt sequence, whose log (at least one call long) is
appended to the GET log. -/
theorem getPostFallback (deflate : String → Except String (List Nat))
    (transport : Transport) (now counter : Nat) (cache : DiagramCache)
    (source diagramType : String) (options : DiagramRenderOptions)
    (hnc : options.useCache = some false)
    (hfail : (KrokiClient.sendGetRequest deflate transport
        (DiagramRenderer.mkRequestOptions source diagramType options) counter).1.success
      = false) :
    ((KrokiClient.sendGetRequest deflate transport
        (DiagramRenderer.mkRequestOptions source diagramType options) counter).1.statusCode
          = some 400 →
      (DiagramRenderer.renderDiagram deflate transport now cache counter source
          diagramType options).log
        = (KrokiClient.sendGetRequest deflate transport
            (DiagramRenderer.mkRequestOptions source diagramType options) counter).2.2 ∧
      DiagramRenderer.postCalls (DiagramRenderer.renderDiagram deflate transport now cache
          counter source diagramType options).log = 0 ∧
      (DiagramRenderer.renderDiagram deflate transport now cache counter source
          diagramType options).result
        = Except.error ("Failed to render diagram: "
            ++ jsStrOr (KrokiClient.sendGetRequest deflate transport
              (DiagramRenderer.mkRequestOptions source diagramType options) counter).1.error
              ("Unknown error"))) ∧
    ((KrokiClient.sendGetRequest deflate transport
        (DiagramRenderer.mkRequestOptions source diagramType options) counter).1.statusCode
          ≠ some 400 →
      (DiagramRenderer.renderDiagram deflate transport now cache counter source
          diagramType options).log
        = (KrokiClient.sendGetRequest deflate transport
            (DiagramRenderer.mkRequestOptions source diagramType options) counter).2.2
          ++ (KrokiClient.sendPostRequest transport
              (DiagramRenderer.mkRequestOptions source diagramType options)
              (KrokiClient.sendGetRequest deflate transport
                (DiagramRenderer.mkRequestOptions source diagramType options) counter).2.1).2.2 ∧
      1 ≤ (KrokiClient.sendPostRequest transport
            (DiagramRenderer.mkRequestOptions source diagramType options)
            (KrokiClient.sendGetRequest deflate transport
              (DiagramRenderer.mkRequestOptions source diagramType options) counter).2.1).2.2.length) := by
  have hcf : useCacheOn options = false := by simp [useCacheOn, hnc]
  rw [renderDiagram_noCache deflate transport now cache counter source diagramType options hcf]
  constructor
  · intro h400
    have hcond : ¬ ((KrokiClient.sendGetRequest deflate transport
        (DiagramRenderer.mkRequestOptions source diagramType options) counter).1.success = false
        ∧ (KrokiClient.sendGetRequest deflate transport
          (DiagramRenderer.mkRequestOptions source diagramType options) counter).1.statusCode
          ≠ some 400) := by
      intro hc
      exact hc.2 h400
    rw [if_neg hcond]
    have hcond2 : ¬ ((KrokiClient.sendGetRequest deflate transport
        (DiagramRenderer.mkRequestOptions source diagramType options) counter).1.success = true
        ∧ jsTruthyStr (KrokiClient.sendGetRequest deflate transport
          (DiagramRenderer.mkRequestOptions source diagramType options) counter).1.data
          = true) := by
      intro hc
      have hc1 := hc.1
      rw [hfail] at hc1
      exact absurd hc1 (by decide)
    rw [if_neg hcond2]
    refine ⟨rfl, ?_, rfl⟩
    exact postCalls_sendGet deflate transport
      (DiagramRenderer.mkRequestOptions source diagramType options) counter
  · intro h400
    have hcond : ((KrokiClient.sendGetRequest deflate transport
        (DiagramRenderer.mkRequestOptions source diagramType options) counter).1.success = false
        ∧ (KrokiClient.sendGetRequest deflate transport
          (DiagramRenderer.mkRequestOptions source diagramType options) counter).1.statusCode
          ≠ some 400) := ⟨hfail, h400⟩
    rw [if_pos hcond]
    refine ⟨?_, sendPost_log_pos transport
      (DiagramRenderer.mkRequestOptions source diagramType options) _⟩
    split
    · rfl
    · rfl

/-- C3 (witness): against a transport that always answers 400, the renderer
performs no POST call. -/
theorem getPostFallback_witness :
    DiagramRenderer.postCalls (DiagramRenderer.renderDiagram
        (fun s => Except.ok (s.data.map Char.toNat))
        (fun _ => ReqOutcome.resp ⟨400, "bad", none, ""⟩) 0
        (DiagramCache.mkCache 100 3600000) 0 "A->B" "plantuml"
        { outputFormat := "svg", serverUrl := "https://kroki.io",
          retryCount := some 1, useCache := some false }).log = 0 :=
  ((getPostFallback (fun s => Except.ok (s.data.map Char.toNat))
      (fun _ => ReqOutcome.resp ⟨400, "bad", none, ""⟩) 0 0
      (DiagramCache.mkCache 100 3600000) "A->B" "plantuml"
      { outputFormat := "svg", serverUrl := "https://kroki.io",
        retryCount := some 1, useCache := some false }
      rfl (by decide)).1 (by decide)).2.1

/-- C6 (counterexample): the claim fails as stated.  With a `deflate` that
always throws, the GET aborts with an encoding failure carrying no status
code, and since that status is not 400 the renderer does perform the POST
fallback — here the POST even succeeds, so the render returns content after
an encoding failure. -/
theorem encodingFailure_counterexample :
    DiagramRenderer.postCalls (DiagramRenderer.renderDiagram
        (fun _ => Except.error ("boom"))
        (fun _ => ReqOutcome.resp ⟨200, "<svg/>", none, ""⟩) 0
        (DiagramCache.mkCache 100 3600000) 0 "A->B" "plantuml"
        { outputFormat := "svg", serverUrl := "https://kroki.io",
          retryCount := some 1, useCache := some false }).log = 1 ∧
      (DiagramRenderer.renderDiagram
        (fun _ => Except.error ("boom"))
        (fun _ => ReqOutcome.resp ⟨200, "<svg/>", none, ""⟩) 0
        (DiagramCache.mkCache 100 3600000) 0 "A->B" "plantuml"
        { outputFormat := "svg", serverUrl := "https://kroki.io",
          retryCount := some 1, useCache := some false }).result
        = Except.ok ("<svg/>") := by
  decide

/-- C6 (amended): an encoding failure is fatal for the GET path only — it is
caught before any network call, so no request is ever sent with a partially
encoded token and the GET makes zero transport attempts (in particular no
GET retry) — but the failure response carries no status code, so the
renderer then performs the POST fallback, which sends the raw
(never-encoded) source. -/
theorem encodingFailureFallback (deflate : String → Except String (List Nat))
    (transport : Transport) (now counter : Nat) (cache : DiagramCache)
    (source diagramType : String) (options : DiagramRenderOptions)
    (hnc : options.useCache = some false)
    (henc : KrokiClient.encodeDiagramSource deflate source
      = Except.error ("Failed to encode diagram source")) :
    (KrokiClient.sendGetRequest deflate transport
        (DiagramRenderer.mkRequestOptions source diagramType options) counter).2.2 = [] ∧
    (KrokiClient.sendGetRequest deflate transport
        (DiagramRenderer.mkRequestOptions source diagramType options) counter).1
      = { success := false, data := none,
          error := some ("Failed to encode diagram source"), statusCode := none } ∧
    (DiagramRenderer.renderDiagram deflate transport now cache counter source
        diagramType options).log
      = (KrokiClient.sendPostRequest transport
          (DiagramRenderer.mkRequestOptions source diagramType options) counter).2.2 ∧
    DiagramRenderer.getCalls (DiagramRenderer.renderDiagram deflate transport now cache
        counter source diagramType options).log = 0 := by
  have hcf : useCacheOn options = false := by simp [useCacheOn, hnc]
  have hg : KrokiClient.sendGetRequest deflate transport
      (DiagramRenderer.mkRequestOptions source diagramType options) counter
      = ({ success := false, data := none,
           error := some ("Failed to encode diagram source"), statusCode := none },
         counter, []) := by
    rw [KrokiClient.sendGetRequest]
    rw [show KrokiClient.encodeDiagramSource deflate
        (DiagramRenderer.mkRequestOptions source diagramType options).source
        = Except.error ("Failed to encode diagram source") from henc]
    rfl
  have hlog : (DiagramRenderer.renderDiagram deflate transport now cache counter source
      diagramType options).log
      = (KrokiClient.sendPostRequest transport
          (DiagramRenderer.mkRequestOptions source diagramType options) counter).2.2 := by
    rw [renderDiagram_noCache deflate transport now cache counter source diagramType options hcf]
    rw [hg]
    have hcond : (({ success := false, data := none,
                     error := some ("Failed to encode diagram source"),
                     statusCode := none } : KrokiResponse),
          counter, ([] : List RequestUrlParam)).1.success = false ∧
        (({ success := false, data := none,
            error := some ("Failed to encode diagram source"),
            statusCode := none } : KrokiResponse),
          counter, ([] : List RequestUrlParam)).1.statusCode ≠ some 400 :=
      ⟨rfl, fun h => Option.noConfusion h⟩
    rw [if_pos hcond]
    split
    · rfl
    · rfl
  have h4 : DiagramRenderer.getCalls (DiagramRenderer.renderDiagram deflate transport now
      cache counter source diagramType options).log = 0 := by
    rw [hlog]
    exact getCalls_sendPost transport
      (DiagramRenderer.mkRequestOptions source diagramType options) counter
  exact ⟨by rw [hg], by rw [hg], hlog, h4⟩

/-- C6 (witness): with an always-throwing `deflate`, the GET makes zero
transport calls and the render's transport log contains no GET call. -/
theorem encodingFailureFallback_witness :
    (KrokiClient.sendGetRequest (fun _ => Except.error ("boom"))
        (fun _ => ReqOutcome.resp ⟨200, "<svg/>", none, ""⟩)
        (DiagramRenderer.mkRequestOptions "A->B" "plantuml"
          { outputFormat := "svg", serverUrl := "https://kroki.io",
            retryCount := some 1, useCache := some false }) 0).2.2 = [] ∧
    DiagramRenderer.getCalls (DiagramRenderer.renderDiagram
        (fun _ => Except.error ("boom"))
        (fun _ => ReqOutcome.resp ⟨200, "<svg/>", none, ""⟩) 0
        (DiagramCache.mkCache 100 3600000) 0 "A->B" "plantuml"
        { outputFormat := "svg", serverUrl := "https://kroki.io",
          retryCount := some 1, useCache := some false }).log = 0 :=
  ⟨(encodingFailureFallback (fun _ => Except.error ("boom"))
      (fun _ => ReqOutcome.resp ⟨200, "<svg/>", none, ""⟩) 0 0
      (DiagramCache.mkCache 100 3600000) "A->B" "plantuml"
      { outputFormat := "svg", serverUrl := "https://kroki.io",
        retryCount := some 1, useCache := some false } rfl (by decide)).1,
    (encodingFailureFallback (fun _ => Except.error ("boom"))
      (fun _ => ReqOutcome.resp ⟨200, "<svg/>", none, ""⟩) 0 0
      (DiagramCache.mkCache 100 3600000) "A->B" "plantuml"
      { outputFormat := "svg", serverUrl := "https://kroki.io",
        retryCount := some 1, useCache := some false } rfl (by decide)).2.2.2⟩

/-- A truthy nullable string is a nonempty string. -/
theorem jsTruthy_getD (o : Option String) (h : jsTruthyStr o = true) :
    o.getD ("") ≠ "" := by
  cases o with
  | none => simp [jsTruthyStr] at h
  | some v =>
    simp only [jsTruthyStr, decide_eq_true_eq] at h
    simpa using h

/-- Helper for C10: whatever the network outcome, the success branch returns
the truthy (hence nonempty) payload and the failure branch throws. -/
theorem renderTailNeverEmpty (a : KrokiResponse) (msg : String)
    (c1 c2 : DiagramCache) (n1 n2 : Nat) (l1 l2 : List RequestUrlParam) (s : String)
    (h : (if a.success = true ∧ jsTruthyStr a.data = true then
            ({ result := Except.ok (a.data.getD ("")), cache := c1,
               counter := n1, log := l1 } : DiagramRenderer.RenderOutcome)
          else
            { result := Except.error msg, cache := c2, counter := n2, log := l2 }).result
      = Except.ok s) :
    s ≠ "" := by
  split at h
  · next hc =>
    simp only [Except.ok.injEq] at h
    exact h ▸ jsTruthy_getD _ hc.2
  · next hc =>
    exact absurd h (by simp)

/-- C10: `renderDiagram` never returns an empty string.  A cached empty
string is falsy and treated as a miss rather than returned, and a 2xx
response whose normalized payload is empty fails the
`response.success && response.data` guard, so the renderer throws instead of
returning it. -/
theorem renderNeverEmpty (deflate : String → Except String (List Nat))
    (transport : Transport) (now : Nat) (cache : DiagramCache) (counter : Nat)
    (source diagramType : String) (options : DiagramRenderOptions) (s : String)
    (h : (DiagramRenderer.renderDiagram deflate transport now cache counter source
        diagramType options).result = Except.ok s) :
    s ≠ "" := by
  rw [DiagramRenderer.renderDiagram] at h
  split at h <;> split at h
  all_goals
    first
      | exact renderTailNeverEmpty _ _ _ _ _ _ _ _ _ h
      | (rename_i hc
         simp only [Except.ok.injEq] at h
         exact h ▸ jsTruthy_getD _ hc)

/-- C10 (witness): a concrete successful render returns a nonempty payload. -/
theorem renderNeverEmpty_witness :
    (DiagramRenderer.renderDiagram (fun s => Except.ok (s.data.map Char.toNat))
        (fun _ => ReqOutcome.resp ⟨200, "<svg/>", none, ""⟩) 0
        (DiagramCache.mkCache 100 3600000) 0 "A->B" "plantuml"
        { outputFormat := "svg", serverUrl := "https://kroki.io",
          retryCount := some 1 }).result = Except.ok ("<svg/>") ∧
      ("<svg/>" : String) ≠ "" :=
  ⟨by decide,
    renderNeverEmpty (fun s => Except.ok (s.data.map Char.toNat))
      (fun _ => ReqOutcome.resp ⟨200, "<svg/>", none, ""⟩) 0
      (DiagramCache.mkCache 100 3600000) 0 "A->B" "plantuml"
      { outputFormat := "svg", serverUrl := "https://kroki.io",
        retryCount := some 1 } "<svg/>" (by decide)⟩

/-- Setting into an empty cache yields the singleton cache: when the
configured size is 0 the synchronous prune removes `0 / 5 = 0` entries, and
otherwise no prune triggers. -/
theorem set_on_empty (maxSize maxAge now : Nat)
    (source rendered diagramType outputFormat : String) (file : Option String) :
    (DiagramCache.mk [] maxSize maxAge).set now source rendered diagramType outputFormat file
      = ⟨[(DiagramCache.generateKey source diagramType outputFormat file,
           { source := source, renderedContent := rendered, timestamp := now,
             diagramType := diagramType, outputFormat := outputFormat })], maxSize, maxAge⟩ := by
  rw [DiagramCache.set]
  simp only [mapSet, List.length_cons, List.length_nil]
  cases maxSize with
  | zero =>
    rw [if_pos (by omega)]
    rw [DiagramCache.pruneCache]
    rfl
  | succ n =>
    rw [if_neg (by omega)]

/-- C8: rendering the same source, diagram type and output format twice with
caching enabled, starting from a fresh cache, within the age bound, against
a transport whose first answer is a 2xx with a truthy payload, invokes the
network transport exactly once: the first render makes one GET call and
populates the cache, the second is answered from the cache with no
transport call, and both return the same payload. -/
theorem renderIdempotent (deflate : String → Except String (List Nat))
    (transport : Transport) (now1 now2 maxSize maxAge counter : Nat)
    (source diagramType tok : String) (options : DiagramRenderOptions)
    (r : RequestUrlResponse)
    (hcache : options.useCache ≠ some false)
    (henc : KrokiClient.encodeDiagramSource deflate source = Except.ok tok)
    (htr : transport counter = ReqOutcome.resp r)
    (h2 : 200 ≤ r.status) (h3 : r.status < 300)
    (hdata : KrokiClient.normalizedPayload r ≠ "")
    (hage : now2 - now1 ≤ maxAge) :
    (DiagramRenderer.renderDiagram deflate transport now1 (DiagramCache.mkCache maxSize maxAge)
        counter source diagramType options).log.length = 1 ∧
    (DiagramRenderer.renderDiagram deflate transport now2
        (DiagramRenderer.renderDiagram deflate transport now1
          (DiagramCache.mkCache maxSize maxAge) counter source diagramType options).cache
        (DiagramRenderer.renderDiagram deflate transport now1
          (DiagramCache.mkCache maxSize maxAge) counter source diagramType options).counter
        source diagramType options).log = [] ∧
    (DiagramRenderer.renderDiagram deflate transport now1 (DiagramCache.mkCache maxSize maxAge)
        counter source diagramType options).result
      = Except.ok (KrokiClient.normalizedPayload r) ∧
    (DiagramRenderer.renderDiagram deflate transport now2
        (DiagramRenderer.renderDiagram deflate transport now1
          (DiagramCache.mkCache maxSize maxAge) counter source diagramType options).cache
        (DiagramRenderer.renderDiagram deflate transport now1
          (DiagramCache.mkCache maxSize maxAge) counter source diagramType options).counter
        source diagramType options).result
      = Except.ok (KrokiClient.normalizedPayload r) := by
  have hcOn : useCacheOn options = true := by
    rw [useCacheOn]
    exact decide_eq_true hcache
  have hg := sendGet_first2xx deflate transport
    (DiagramRenderer.mkRequestOptions source diagramType options) counter tok r
    (show KrokiClient.encodeDiagramSource deflate
      (DiagramRenderer.mkRequestOptions source diagramType options).source = Except.ok tok
      from henc)
    htr ⟨h2, h3⟩
  have hfalse : jsTruthyStr (none : Option String) = false := rfl
  have hR1 : DiagramRenderer.renderDiagram deflate transport now1
      (DiagramCache.mkCache maxSize maxAge) counter source diagramType options
      = { result := Except.ok (KrokiClient.normalizedPayload r),
          cache := ⟨[(DiagramCache.generateKey source diagramType options.outputFormat none,
                      { source := source,
                        renderedContent := KrokiClient.normalizedPayload r,
                        timestamp := now1, diagramType := diagramType,
                        outputFormat := options.outputFormat })], maxSize, maxAge⟩,
          counter := counter + 1,
          log := [{ url := KrokiClient.normalizeServerUrl options.serverUrl ++ diagramType
                      ++ "/" ++ options.outputFormat ++ "/" ++ tok,
                    method := "GET", body := none }] } := by
    simp only [DiagramRenderer.renderDiagram, hcOn, eq_self_iff_true, if_true,
      DiagramCache.get, DiagramCache.mkCache, mapLookup, hfalse, Bool.false_eq_true,
      if_false]
    rw [hg]
    split
    · next hcf => exact Bool.noConfusion hcf.1
    · next hcf =>
      split
      · next hcs =>
        rw [set_on_empty]
        rfl
      · next hcs => exact absurd ⟨rfl, decide_eq_true hdata⟩ hcs
  have hkey : mapLookup
      [(DiagramCache.generateKey source diagramType options.outputFormat none,
        ({ source := source, renderedContent := KrokiClient.normalizedPayload r,
           timestamp := now1, diagramType := diagramType,
           outputFormat := options.outputFormat } : DiagramCacheEntry))]
      (DiagramCache.generateKey source diagramType options.outputFormat none)
      = some { source := source, renderedContent := KrokiClient.normalizedPayload r,
               timestamp := now1, diagramType := diagramType,
               outputFormat := options.outputFormat } := by
    rw [mapLookup]
    rw [if_pos rfl]
  have hR2 : DiagramRenderer.renderDiagram deflate transport now2
      (⟨[(DiagramCache.generateKey source diagramType options.outputFormat none,
          { source := source, renderedContent := KrokiClient.normalizedPayload r,
            timestamp := now1, diagramType := diagramType,
            outputFormat := options.outputFormat })], maxSize, maxAge⟩ : DiagramCache)
      (counter + 1) source diagramType options
      = { result := Except.ok (KrokiClient.normalizedPayload r),
          cache := ⟨[(DiagramCache.generateKey source diagramType options.outputFormat none,
                      { source := source,
                        renderedContent := KrokiClient.normalizedPayload r,
                        timestamp := now1, diagramType := diagramType,
                        outputFormat := options.outputFormat })], maxSize, maxAge⟩,
          counter := counter + 1,
          log := [] } := by
    simp only [DiagramRenderer.renderDiagram, hcOn, eq_self_iff_true, if_true,
      DiagramCache.get, hkey]
    split
    · next hhit =>
      split
      · next hcn => rfl
      · next hcn => exact absurd (decide_eq_true hdata) hcn
    · next hmiss => exact absurd hage hmiss
  have hc2 : DiagramRenderer.renderDiagram deflate transport now2
      (DiagramRenderer.renderDiagram deflate transport now1
        (DiagramCache.mkCache maxSize maxAge) counter source diagramType options).cache
      (DiagramRenderer.renderDiagram deflate transport now1
        (DiagramCache.mkCache maxSize maxAge) counter source diagramType options).counter
      source diagramType options
      = { result := Except.ok (KrokiClient.normalizedPayload r),
          cache := ⟨[(DiagramCache.generateKey source diagramType options.outputFormat none,
                      { source := source,
                        renderedContent := KrokiClient.normalizedPayload r,
                        timestamp := now1, diagramType := diagramType,
                        outputFormat := options.outputFormat })], maxSize, maxAge⟩,
          counter := counter + 1,
          log := [] } := by
    rw [hR1]
    exact hR2
  rw [hc2, hR1]
  exact ⟨rfl, rfl, rfl, rfl⟩

/-- C8 (witness): two concrete renders of the same triple make exactly one
transport call in total. -/
theorem renderIdempotent_witness :
    (DiagramRenderer.renderDiagram (fun s => Except.ok (s.data.map Char.toNat))
        (fun _ => ReqOutcome.resp ⟨200, "<svg/>", none, ""⟩) 10
        (DiagramCache.mkCache 100 3600000) 0 "A->B" "plantuml"
        { outputFormat := "svg", serverUrl := "https://kroki.io",
          retryCount := some 1 }).log.length = 1 ∧
    (DiagramRenderer.renderDiagram (fun s => Except.ok (s.data.map Char.toNat))
        (fun _ => ReqOutcome.resp ⟨200, "<svg/>", none, ""⟩) 20
        (DiagramRenderer.renderDiagram (fun s => Except.ok (s.data.map Char.toNat))
          (fun _ => ReqOutcome.resp ⟨200, "<svg/>", none, ""⟩) 10
          (DiagramCache.mkCache 100 3600000) 0 "A->B" "plantuml"
          { outputFormat := "svg", serverUrl := "https://kroki.io",
            retryCount := some 1 }).cache
        (DiagramRenderer.renderDiagram (fun s => Except.ok (s.data.map Char.toNat))
          (fun _ => ReqOutcome.resp ⟨200, "<svg/>", none, ""⟩) 10
          (DiagramCache.mkCache 100 3600000) 0 "A->B" "plantuml"
          { outputFormat := "svg", serverUrl := "https://kroki.io",
            retryCount := some 1 }).counter "A->B" "plantuml"
        { outputFormat := "svg", serverUrl := "https://kroki.io",
          retryCount := some 1 }).log = [] :=
  ⟨(renderIdempotent (fun s => Except.ok (s.data.map Char.toNat))
      (fun _ => ReqOutcome.resp ⟨200, "<svg/>", none, ""⟩) 10 20 100 3600000 0
      "A->B" "plantuml" "QS0-Qg"
      { outputFormat := "svg", serverUrl := "https://kroki.io", retryCount := some 1 }
      ⟨200, "<svg/>", none, ""⟩ (by decide) (by decide) rfl (by decide) (by decide)
      (by decide) (by decide)).1,
    (renderIdempotent (fun s => Except.ok (s.data.map Char.toNat))
      (fun _ => ReqOutcome.resp ⟨200, "<svg/>", none, ""⟩) 10 20 100 3600000 0
      "A->B" "plantuml" "QS0-Qg"
      { outputFormat := "svg", serverUrl := "https://kroki.io", retryCount := some 1 }
      ⟨200, "<svg/>", none, ""⟩ (by decide) (by decide) rfl (by decide) (by decide)
      (by decide) (by decide)).2.1⟩
